import Mathlib

/-!
The watch face of pebbar: message decoding and duplicate detection.

Shallow embedding of the two `inbox_received_handler` functions of the watch
application (`src/watch/src/c/pebbar.c`, the three-key schema B with icons and
duplicate suppression, and `src/watch/src/c/myfirstproject.c`, the two-key
schema A), together with the C library and SDK primitives they call.

Memory regions (`char` buffers, tuple payloads) are lists of bytes; a C string
is the run of bytes of a region up to its first NUL byte.
-/

set_option maxRecDepth 100000

/-! ## C library and SDK primitives -/

namespace Pebble

/-- One entry of an incoming dictionary: `data` is the payload that the
`value` union of the SDK `Tuple` points at. -/
structure Tuple where
  data : List Nat
deriving DecidableEq

/-- The read `tuple->value->uint8`: the first payload byte. -/
def Tuple.uint8 (t : Tuple) : Nat := t.data.headD 0 % 256

/-- The read `tuple->value->cstring`: the address of the payload. -/
def Tuple.cstring (t : Tuple) : List Nat := t.data

/-- The received dictionary: its tuples with their keys, in wire order. -/
abbrev DictionaryIterator := List (Nat × Tuple)

/-- The SDK `dict_find`: the first tuple carrying `key`, or NULL. -/
def dict_find : DictionaryIterator → Nat → Option Tuple
  | [], _ => none
  | (k, t) :: rest, key => if k = key then some t else dict_find rest key

/-- The C string starting at the beginning of a memory region: its bytes up to
the first NUL (the end of the region reads as NUL). -/
def cstr : List Nat → List Nat
  | [] => []
  | c :: rest => if c = 0 then [] else c :: cstr rest

/-- The function `strlen` of the C library. -/
def strlen (s : List Nat) : Nat := (cstr s).length

/-- The function `strcmp` of the C library: the difference of the first pair of bytes that
differ, 0 when both strings end together. -/
def strcmp : List Nat → List Nat → Int
  | [], [] => 0
  | [], b :: _ => 0 - (b : Int)
  | a :: _, [] => (a : Int)
  | a :: as, b :: bs =>
    if a ≠ b then (a : Int) - (b : Int)
    else if a = 0 then 0
    else strcmp as bs

/-- The function `strncpy dst src n` of the C library: writes exactly `n` bytes at the start
of `dst`, the bytes of the string `src` and then NUL bytes once it has ended.
Every call of the handlers has `n` below the size of `dst`; a write past the end
of `dst` is outside the model and dropped. -/
def strncpy : List Nat → List Nat → Nat → List Nat
  | dst, _, 0 => dst
  | [], _, _ + 1 => []
  | _ :: dst, [], n + 1 => 0 :: strncpy dst [] n
  | _ :: dst, c :: src, n + 1 =>
    if c = 0 then 0 :: strncpy dst [] n else c :: strncpy dst src n

/-- A region of `n` bytes after `memset (.., 0, ..)`. -/
def zeroed (n : Nat) : List Nat := List.replicate n 0

/-- The exits of the handler, as the specification names them: the early return on a
missing count (`Rejected`), the early return of the duplicate check
(`Skipped`), and running to the end (`Accepted`). -/
inductive DecodeOutcome where
  | Accepted
  | Skipped
  | Rejected
deriving DecidableEq

end Pebble

/-! ## pebbar.c (schema B) -/

namespace Pebbar

open Pebble

def MAX_FACE_ELEMENTS : Nat := 4
def MAX_ELEMENT_VALUE_LEN : Nat := 256
def MAX_ICON_NAME_LEN : Nat := 32

def KEY_FACE_COUNT : Nat := 0
def KEY_ELEM_TYPE (i : Nat) : Nat := 1 + i * 3
def KEY_ELEM_VALUE (i : Nat) : Nat := 2 + i * 3
def KEY_ELEM_ICON (i : Nat) : Nat := 3 + i * 3

/-- The struct `FaceElement`. -/
structure FaceElement where
  type : Nat
  value : List Nat
  icon_name : List Nat
  active : Bool
deriving DecidableEq

/-- The struct `FaceLayout`. -/
structure FaceLayout where
  count : Nat
  elements : List FaceElement
deriving DecidableEq

/-- A `FaceElement` whose bytes are all zero. -/
def FaceElement.zero : FaceElement :=
  { type := 0, value := zeroed MAX_ELEMENT_VALUE_LEN,
    icon_name := zeroed MAX_ICON_NAME_LEN, active := false }

/-- The layout after `memset (&s_face_layout, 0, sizeof (s_face_layout))`. -/
def FaceLayout.zero : FaceLayout :=
  { count := 0, elements := List.replicate MAX_FACE_ELEMENTS FaceElement.zero }

/-- The element `layout.elements[i]`. -/
def FaceLayout.elem (layout : FaceLayout) (i : Nat) : FaceElement :=
  layout.elements.getD i FaceElement.zero

/-- Calls into the collaborators: the renderer, which reads the global layout
as it is at the time of the call, and the vibration motor. -/
inductive Effect where
  | update_face_layout (shown : FaceLayout)
  | vibes_short_pulse
deriving DecidableEq

/-- The globals the handler reads and writes, and the calls made so far. -/
structure State where
  s_skip_duplicate_updates : Bool
  s_face_layout : FaceLayout
  calls : List Effect
deriving DecidableEq

/-- The clamp of lines 154-157. -/
def clamp_count (count_tuple : Tuple) : Nat :=
  if count_tuple.uint8 > MAX_FACE_ELEMENTS then MAX_FACE_ELEMENTS else count_tuple.uint8

/-- One pass of the body of the comparison loop (lines 163-178) at index `i`;
the loop condition `!changed` makes it a no-op once a change was seen. -/
def changed_step (iter : DictionaryIterator) (layout : FaceLayout)
    (changed : Bool) (i : Nat) : Bool :=
  if changed then changed
  else
    match dict_find iter (KEY_ELEM_TYPE i), dict_find iter (KEY_ELEM_VALUE i) with
    | some type_tuple, some value_tuple =>
      let changed :=
        if (layout.elem i).type ≠ type_tuple.uint8 ∨
            strcmp (layout.elem i).value value_tuple.cstring ≠ 0 then true else changed
      let new_icon :=
        match dict_find iter (KEY_ELEM_ICON i) with
        | some icon_tuple => icon_tuple.cstring
        | none => [0]
      if strcmp (layout.elem i).icon_name new_icon ≠ 0 then true else changed
    | _, _ => changed

/-- The duplicate check of lines 160-179: the final value of `changed`. -/
def detect_changed (iter : DictionaryIterator) (layout : FaceLayout) (count : Nat) : Bool :=
  let changed := decide (count ≠ layout.count)
  if !changed then (List.range count).foldl (changed_step iter layout) changed
  else changed

/-- One pass of the body of the decoding loop (lines 190-209) at index `i`. -/
def build_step (iter : DictionaryIterator) (layout : FaceLayout) (i : Nat) : FaceLayout :=
  match dict_find iter (KEY_ELEM_TYPE i), dict_find iter (KEY_ELEM_VALUE i) with
  | some type_tuple, some value_tuple =>
    let e := layout.elem i
    let e := { e with type := type_tuple.uint8 }
    let value := strncpy e.value value_tuple.cstring (MAX_ELEMENT_VALUE_LEN - 1)
    let e := { e with value := value.set (MAX_ELEMENT_VALUE_LEN - 1) 0 }
    let e :=
      match dict_find iter (KEY_ELEM_ICON i) with
      | some icon_tuple =>
        let icon_name := strncpy e.icon_name icon_tuple.cstring (MAX_ICON_NAME_LEN - 1)
        { e with icon_name := icon_name.set (MAX_ICON_NAME_LEN - 1) 0 }
      | none => e
    let e := { e with active := true }
    { layout with elements := layout.elements.set i e }
  | _, _ => layout

/-- The build of lines 186-210: zero the layout, set the count, decode each
index below it. -/
def build_layout (iter : DictionaryIterator) (count : Nat) : FaceLayout :=
  let layout := FaceLayout.zero
  let layout := { layout with count := count }
  (List.range count).foldl (build_step iter) layout

/-- The function `inbox_received_handler` of pebbar.c (lines 148-214). -/
def inbox_received_handler (iter : DictionaryIterator) (s : State) : DecodeOutcome × State :=
  match dict_find iter KEY_FACE_COUNT with
  | none => (DecodeOutcome.Rejected, s)
  | some count_tuple =>
    let count := clamp_count count_tuple
    if s.s_skip_duplicate_updates && !(detect_changed iter s.s_face_layout count) then
      (DecodeOutcome.Skipped, s)
    else
      let s := { s with s_face_layout := build_layout iter count }
      let s := { s with calls := s.calls ++ [Effect.update_face_layout s.s_face_layout] }
      let s := { s with calls := s.calls ++ [Effect.vibes_short_pulse] }
      (DecodeOutcome.Accepted, s)

/-- The globals after `init_face_layers` (line 221), with the flag as given. -/
def init_state (skip : Bool) : State :=
  { s_skip_duplicate_updates := skip, s_face_layout := FaceLayout.zero, calls := [] }

/-- What the decoding loop leaves at index `i` of the zeroed layout, read off
the dictionary: a helper for the proofs below, related to the loop itself by
`build_layout_elem`. -/
def slot (iter : DictionaryIterator) (i : Nat) : FaceElement :=
  match dict_find iter (KEY_ELEM_TYPE i), dict_find iter (KEY_ELEM_VALUE i) with
  | some type_tuple, some value_tuple =>
    { type := type_tuple.uint8
      value := (strncpy (zeroed 256) value_tuple.cstring 255).set 255 0
      icon_name :=
        match dict_find iter (KEY_ELEM_ICON i) with
        | some icon_tuple => (strncpy (zeroed 32) icon_tuple.cstring 31).set 31 0
        | none => zeroed 32
      active := true }
  | _, _ => FaceElement.zero

/-- The string the comparison loop takes for the icon at index `i`: the string of
the icon tuple, the empty string when there is none. -/
def new_icon (iter : DictionaryIterator) (i : Nat) : List Nat :=
  match dict_find iter (KEY_ELEM_ICON i) with
  | some icon_tuple => cstr icon_tuple.cstring
  | none => []

/-- The state after the handler has been called on each message of `msgs` in
turn, starting from `s`. -/
def run_from (s : State) (msgs : List DictionaryIterator) : State :=
  msgs.foldl (fun st m => (inbox_received_handler m st).2) s

/-- The state after init and the delivery of `msgs`, one message at a time. -/
def run (skip : Bool) (msgs : List DictionaryIterator) : State :=
  run_from (init_state skip) msgs

/-- An element is well formed: all-zero unless present, its text in a buffer of 256
bytes and ended inside it, its icon name in a buffer of 32 bytes and ended
inside it. -/
def elem_ok (e : FaceElement) : Prop :=
  (e.active = false → e = FaceElement.zero) ∧
  (e.value.length = 256 ∧ strlen e.value ≤ 255 ∧ e.value[strlen e.value]? = some 0 ∧
    e.icon_name.length = 32 ∧ strlen e.icon_name ≤ 31 ∧
    e.icon_name[strlen e.icon_name]? = some 0)

/-- The invariant of the current layout. -/
def layout_ok (layout : FaceLayout) : Prop :=
  layout.count ≤ 4 ∧ layout.elements.length = 4 ∧
  (∀ i, layout.count ≤ i → i < 4 → layout.elem i = FaceElement.zero) ∧
  ∀ i, i < 4 → elem_ok (layout.elem i)

end Pebbar

/-! ## myfirstproject.c (schema A) -/

namespace MyFirstProject

open Pebble

def MAX_FACE_ELEMENTS : Nat := 4
def MAX_ELEMENT_VALUE_LEN : Nat := 256

def KEY_FACE_COUNT : Nat := 0
def KEY_ELEM_TYPE (i : Nat) : Nat := 1 + i * 2
def KEY_ELEM_VALUE (i : Nat) : Nat := 2 + i * 2

/-- The struct `FaceElement` of myfirstproject.c: no icon name. -/
structure FaceElement where
  type : Nat
  value : List Nat
  active : Bool
deriving DecidableEq

/-- The struct `FaceLayout` of myfirstproject.c. -/
structure FaceLayout where
  count : Nat
  elements : List FaceElement
deriving DecidableEq

/-- A `FaceElement` whose bytes are all zero. -/
def FaceElement.zero : FaceElement :=
  { type := 0, value := zeroed MAX_ELEMENT_VALUE_LEN, active := false }

/-- The layout after `memset (&s_face_layout, 0, sizeof (s_face_layout))`. -/
def FaceLayout.zero : FaceLayout :=
  { count := 0, elements := List.replicate MAX_FACE_ELEMENTS FaceElement.zero }

/-- The element `layout.elements[i]`. -/
def FaceLayout.elem (layout : FaceLayout) (i : Nat) : FaceElement :=
  layout.elements.getD i FaceElement.zero

/-- Calls into the collaborators: the renderer, which reads the global layout
as it is at the time of the call, and the vibration motor. -/
inductive Effect where
  | update_face_layout (shown : FaceLayout)
  | vibes_short_pulse
deriving DecidableEq

/-- The global the handler writes, and the calls made so far. -/
structure State where
  s_face_layout : FaceLayout
  calls : List Effect
deriving DecidableEq

/-- The clamp of lines 70-73. -/
def clamp_count (count_tuple : Tuple) : Nat :=
  if count_tuple.uint8 > MAX_FACE_ELEMENTS then MAX_FACE_ELEMENTS else count_tuple.uint8

/-- One pass of the body of the decoding loop (lines 79-89) at index `i`. -/
def build_step (iter : DictionaryIterator) (layout : FaceLayout) (i : Nat) : FaceLayout :=
  match dict_find iter (KEY_ELEM_TYPE i), dict_find iter (KEY_ELEM_VALUE i) with
  | some type_tuple, some value_tuple =>
    let e := layout.elem i
    let e := { e with type := type_tuple.uint8 }
    let value := strncpy e.value value_tuple.cstring (MAX_ELEMENT_VALUE_LEN - 1)
    let e := { e with value := value.set (MAX_ELEMENT_VALUE_LEN - 1) 0 }
    let e := { e with active := true }
    { layout with elements := layout.elements.set i e }
  | _, _ => layout

/-- The build of lines 75-90: zero the layout, set the count, decode each index
below it. -/
def build_layout (iter : DictionaryIterator) (count : Nat) : FaceLayout :=
  let layout := FaceLayout.zero
  let layout := { layout with count := count }
  (List.range count).foldl (build_step iter) layout

/-- The function `inbox_received_handler` of myfirstproject.c (lines 64-94). -/
def inbox_received_handler (iter : DictionaryIterator) (s : State) : DecodeOutcome × State :=
  match dict_find iter KEY_FACE_COUNT with
  | none => (DecodeOutcome.Rejected, s)
  | some count_tuple =>
    let count := clamp_count count_tuple
    let s := { s with s_face_layout := build_layout iter count }
    let s := { s with calls := s.calls ++ [Effect.update_face_layout s.s_face_layout] }
    let s := { s with calls := s.calls ++ [Effect.vibes_short_pulse] }
    (DecodeOutcome.Accepted, s)

/-- What the decoding loop leaves at index `i` of the zeroed layout, read off
the dictionary: a helper for the proofs below, related to the loop itself by
`two_key_build_layout_elem`. -/
def slot (iter : DictionaryIterator) (i : Nat) : FaceElement :=
  match dict_find iter (KEY_ELEM_TYPE i), dict_find iter (KEY_ELEM_VALUE i) with
  | some type_tuple, some value_tuple =>
    { type := type_tuple.uint8
      value := (strncpy (zeroed 256) value_tuple.cstring 255).set 255 0
      active := true }
  | _, _ => FaceElement.zero

/-- The globals after `init` (line 116). -/
def init_state : State :=
  { s_face_layout := FaceLayout.zero, calls := [] }

end MyFirstProject

/-! ## The Change Detector of the specification -/

namespace Spec

open Pebble Pebbar

/-- The structural equality `equal (a, b)` as section 4.2 of the specification
words it: the counts are equal and, at every index below the count, kind, text
and icon name are equal byte for byte; indices at or above the count are not
compared. -/
def equal (a b : FaceLayout) : Bool :=
  decide (a.count = b.count) &&
    (List.range a.count).all fun i =>
      decide ((a.elem i).type = (b.elem i).type) &&
      decide (cstr (a.elem i).value = cstr (b.elem i).value) &&
      decide (cstr (a.elem i).icon_name = cstr (b.elem i).icon_name)

end Spec

/-! ## Messages used as concrete inputs -/

namespace Sample

open Pebble

/-- The bytes of "Rain" with its terminator. -/
def rain : List Nat := [82, 97, 105, 110, 0]

/-- The bytes of "Rain, heavy" with its terminator. -/
def rain_heavy : List Nat := [82, 97, 105, 110, 44, 32, 104, 101, 97, 118, 121, 0]

/-- The bytes of "Steps: 120" with its terminator. -/
def steps : List Nat := [83, 116, 101, 112, 115, 58, 32, 49, 50, 48, 0]

/-- The message `{0: 1, 1: 5, 2: "Rain"}`. -/
def msg_rain : DictionaryIterator := [(0, ⟨[1]⟩), (1, ⟨[5]⟩), (2, ⟨rain⟩)]

/-- The message `{0: 1, 1: 5, 2: "Rain, heavy"}`. -/
def msg_rain_heavy : DictionaryIterator := [(0, ⟨[1]⟩), (1, ⟨[5]⟩), (2, ⟨rain_heavy⟩)]

/-- The message `{0: 2, 1: 5, 2: "Rain", 4: 7, 5: "Steps: 120"}`. -/
def msg_two : DictionaryIterator :=
  [(0, ⟨[2]⟩), (1, ⟨[5]⟩), (2, ⟨rain⟩), (4, ⟨[7]⟩), (5, ⟨steps⟩)]

/-- The message `{0: 2, 1: 5, 2: "Rain", 3: 7, 4: "Steps: 120"}`. -/
def msg_two_a : DictionaryIterator :=
  [(0, ⟨[2]⟩), (1, ⟨[5]⟩), (2, ⟨rain⟩), (3, ⟨[7]⟩), (4, ⟨steps⟩)]

/-- The message `{0: 2, 4: 7, 5: "Steps: 120"}`: under schema B index 0 has no
keys and index 1 has its type and value keys. -/
def msg_gap : DictionaryIterator := [(0, ⟨[2]⟩), (4, ⟨[7]⟩), (5, ⟨steps⟩)]

/-- The message `{0: 2, 3: 7, 4: "Steps: 120"}`: under schema A index 0 has no
keys and index 1 has its type and value keys. -/
def msg_gap_a : DictionaryIterator := [(0, ⟨[2]⟩), (3, ⟨[7]⟩), (4, ⟨steps⟩)]

/-- The message `{0: 6}`. -/
def msg_six : DictionaryIterator := [(0, ⟨[6]⟩)]

/-- The message `{0: 1}`. -/
def msg_one_empty : DictionaryIterator := [(0, ⟨[1]⟩)]

/-- A message `{0: 1, 1: 5, 2: text}` whose text is 256 bytes long, one more
than an element stores. -/
def msg_long : DictionaryIterator :=
  [(0, ⟨[1]⟩), (1, ⟨[5]⟩), (2, ⟨List.replicate 256 97 ++ [0]⟩)]

/-- A message `{0: 1, 1: 5, 2: "Rain", 3: icon}` whose icon name is 32 bytes long,
one more than an element stores. -/
def msg_long_icon : DictionaryIterator :=
  [(0, ⟨[1]⟩), (1, ⟨[5]⟩), (2, ⟨rain⟩), (3, ⟨List.replicate 32 97 ++ [0]⟩)]

end Sample

/-! ## Facts about the C library model -/

namespace Pebble

theorem cstr_length_le (s : List Nat) : (cstr s).length ≤ s.length := by
  induction s with
  | nil => simp [cstr]
  | cons c rest ih =>
    by_cases h : c = 0
    · simp [cstr, h]
    · simp [cstr, h]; omega

/-- The byte after a C string that ends inside its region is the NUL. -/
theorem cstr_terminated (s : List Nat) (h : (cstr s).length < s.length) :
    s[(cstr s).length]? = some 0 := by
  induction s with
  | nil => simp at h
  | cons c rest ih =>
    by_cases hc : c = 0
    · simp [cstr, hc]
    · simp only [cstr, hc, if_false, List.length_cons] at h ⊢
      simpa using ih (by omega)

/-- The function `strcmp` returns 0 exactly on equal C strings. -/
theorem strcmp_eq_zero_iff (a b : List Nat) : strcmp a b = 0 ↔ cstr a = cstr b := by
  induction a generalizing b with
  | nil =>
    cases b with
    | nil => simp [strcmp, cstr]
    | cons y ys =>
      by_cases hy : y = 0
      · simp [strcmp, cstr, hy]
      · simp [strcmp, cstr, hy]
  | cons x xs ih =>
    cases b with
    | nil =>
      by_cases hx : x = 0
      · simp [strcmp, cstr, hx]
      · simp [strcmp, cstr, hx]
    | cons y ys =>
      by_cases hxy : x = y
      · subst hxy
        by_cases hx : x = 0
        · simp [strcmp, cstr, hx]
        · simp [strcmp, cstr, hx, ih]
      · have hne : (x : Int) - (y : Int) ≠ 0 := by omega
        by_cases hx : x = 0
        · by_cases hy : y = 0
          · omega
          · simp [strcmp, cstr, hx, hy, hxy, hne]
            omega
        · by_cases hy : y = 0
          · simp [strcmp, cstr, hx, hy, hxy, hne]
          · simp [strcmp, cstr, hx, hy, hxy, hne]

theorem strncpy_length (dst src : List Nat) (n : Nat) :
    (strncpy dst src n).length = dst.length := by
  induction n generalizing dst src with
  | zero => simp [strncpy]
  | succ n ih =>
    cases dst with
    | nil => simp [strncpy]
    | cons d ds =>
      cases src with
      | nil => simp [strncpy, ih]
      | cons c cs =>
        by_cases hc : c = 0
        · simp [strncpy, hc, ih]
        · simp [strncpy, hc, ih]

/-- The bounded copy `strncpy (dst, src, n); dst[n] = 0` leaves in `dst` the
first `n` bytes of the string `src`. -/
theorem cstr_strncpy_set (dst src : List Nat) (n : Nat) (h : n < dst.length) :
    cstr ((strncpy dst src n).set n 0) = (cstr src).take n := by
  induction n generalizing dst src with
  | zero =>
    cases dst with
    | nil => simp at h
    | cons d ds => simp [strncpy, cstr]
  | succ n ih =>
    cases dst with
    | nil => simp at h
    | cons d ds =>
      have h2 : n < ds.length := by simpa using h
      cases src with
      | nil => simp [strncpy, cstr]
      | cons c cs =>
        by_cases hc : c = 0
        · simp [strncpy, cstr, hc]
        · simp [strncpy, cstr, hc, ih ds cs h2]

theorem take_min_length (l : List Nat) (n : Nat) : l.take n = l.take (min l.length n) := by
  by_cases h : l.length ≤ n
  · rw [Nat.min_eq_left h, List.take_of_length_le h, List.take_of_length_le (Nat.le_refl _)]
  · rw [Nat.min_eq_right (by omega)]

/-- The bounded copy into a zeroed buffer of `n + 1` bytes: the buffer keeps its
size, holds the first `min (strlen src) n` bytes of `src`, and the byte after
them is the NUL. -/
theorem bounded_copy (src : List Nat) (n : Nat) :
    ((strncpy (zeroed (n + 1)) src n).set n 0).length = n + 1 ∧
    cstr ((strncpy (zeroed (n + 1)) src n).set n 0) = (cstr src).take (min (strlen src) n) ∧
    strlen ((strncpy (zeroed (n + 1)) src n).set n 0) = min (strlen src) n ∧
    ((strncpy (zeroed (n + 1)) src n).set n 0)[min (strlen src) n]? = some 0 := by
  have hlen : ((strncpy (zeroed (n + 1)) src n).set n 0).length = n + 1 := by
    simp [strncpy_length, zeroed]
  have hc : cstr ((strncpy (zeroed (n + 1)) src n).set n 0) = (cstr src).take n :=
    cstr_strncpy_set _ _ _ (by simp [zeroed])
  have hl : strlen ((strncpy (zeroed (n + 1)) src n).set n 0) = min (strlen src) n := by
    unfold strlen
    rw [hc, List.length_take]
    omega
  refine ⟨hlen, ?_, hl, ?_⟩
  · rw [hc]; exact take_min_length _ _
  · have h := cstr_terminated ((strncpy (zeroed (n + 1)) src n).set n 0) (by
      have := hl; unfold strlen at this; rw [this, hlen]; omega)
    have e : (cstr ((strncpy (zeroed (n + 1)) src n).set n 0)).length = min (strlen src) n := hl
    rw [e] at h
    exact h

theorem cstr_zeroed (n : Nat) : cstr (zeroed n) = [] := by
  cases n with
  | zero => rfl
  | succ n => simp [zeroed, List.replicate_succ, cstr]

end Pebble

/-! ## The decoding loop of pebbar.c in closed form -/

namespace Pebbar

open Pebble

theorem elem_set (c : Nat) (l : List FaceElement) (n i : Nat) (e : FaceElement) :
    (FaceLayout.mk c (l.set n e)).elem i =
      if i = n ∧ n < l.length then e else (FaceLayout.mk c l).elem i := by
  unfold FaceLayout.elem
  simp only [List.getD_eq_getElem?_getD, List.getElem?_set]
  by_cases h : n = i
  · subst h
    by_cases h2 : n < l.length
    · simp [h2]
    · simp [h2]
      have : l[n]? = none := by simp; omega
      simp [this]
  · have h3 : ¬ (i = n) := fun hh => h hh.symm
    simp [h, h3]

theorem build_step_slot (iter : DictionaryIterator) (layout : FaceLayout) (n : Nat)
    (hlen : layout.elements.length = 4) (hn : n < 4)
    (hz : layout.elem n = FaceElement.zero) :
    (build_step iter layout n).count = layout.count ∧
    (build_step iter layout n).elements.length = 4 ∧
    ∀ i, (build_step iter layout n).elem i = if i = n then slot iter n else layout.elem i := by
  obtain ⟨c, l⟩ := layout
  simp only at hlen
  unfold build_step slot
  cases ht : dict_find iter (KEY_ELEM_TYPE n) with
  | none =>
    refine ⟨rfl, hlen, fun i => ?_⟩
    by_cases hi : i = n
    · subst hi; simp [hz]
    · simp [hi]
  | some tt =>
    cases hv : dict_find iter (KEY_ELEM_VALUE n) with
    | none =>
      refine ⟨rfl, hlen, fun i => ?_⟩
      by_cases hi : i = n
      · subst hi; simp [hz]
      · simp [hi]
    | some vt =>
      refine ⟨rfl, by simp [hlen], fun i => ?_⟩
      simp only [elem_set, hlen, hn, and_true, hz]
      by_cases hi : i = n
      · simp only [hi, if_true]
        cases dict_find iter (KEY_ELEM_ICON n) <;>
          simp [FaceElement.zero, MAX_ELEMENT_VALUE_LEN, MAX_ICON_NAME_LEN]
      · simp [hi]

theorem build_fold (iter : DictionaryIterator) (c n : Nat) (hn : n ≤ 4) :
    ((List.range n).foldl (build_step iter) { FaceLayout.zero with count := c }).count = c ∧
    ((List.range n).foldl (build_step iter)
      { FaceLayout.zero with count := c }).elements.length = 4 ∧
    ∀ i, ((List.range n).foldl (build_step iter) { FaceLayout.zero with count := c }).elem i =
      if i < n then slot iter i else FaceElement.zero := by
  induction n with
  | zero =>
    refine ⟨rfl, rfl, fun i => ?_⟩
    simp only [List.range_zero, List.foldl_nil, Nat.not_lt_zero, if_false]
    unfold FaceLayout.elem FaceLayout.zero
    simp only [List.getD_eq_getElem?_getD, List.getElem?_replicate]
    by_cases hi : i < MAX_FACE_ELEMENTS <;> simp [hi]
  | succ n ih =>
    obtain ⟨h1, h2, h3⟩ := ih (by omega)
    simp only [List.range_succ, List.foldl_append, List.foldl_cons, List.foldl_nil]
    have hz := h3 n
    simp only [Nat.lt_irrefl, if_false] at hz
    obtain ⟨g1, g2, g3⟩ := build_step_slot iter _ n h2 (by omega) hz
    refine ⟨g1.trans h1, g2, fun i => ?_⟩
    rw [g3 i, h3 i]
    by_cases hi : i = n
    · simp [hi]
    · by_cases hlt : i < n
      · have : i < n + 1 := by omega
        simp [hi, hlt, this]
      · have : ¬ i < n + 1 := by omega
        simp [hi, hlt, this]

theorem build_layout_count (iter : DictionaryIterator) (count : Nat) (h : count ≤ 4) :
    (build_layout iter count).count = count :=
  (build_fold iter count count h).1

theorem build_layout_length (iter : DictionaryIterator) (count : Nat) (h : count ≤ 4) :
    (build_layout iter count).elements.length = 4 :=
  (build_fold iter count count h).2.1

theorem build_layout_elem (iter : DictionaryIterator) (count : Nat) (h : count ≤ 4) (i : Nat) :
    (build_layout iter count).elem i = if i < count then slot iter i else FaceElement.zero :=
  (build_fold iter count count h).2.2 i

theorem clamp_count_eq (count_tuple : Tuple) : clamp_count count_tuple = min count_tuple.uint8 4 := by
  unfold clamp_count MAX_FACE_ELEMENTS
  split <;> omega

theorem clamp_count_le (count_tuple : Tuple) : clamp_count count_tuple ≤ 4 := by
  rw [clamp_count_eq]; omega

end Pebbar

/-! ## The handler of pebbar.c by cases, and its comparison loop -/

namespace Pebbar

open Pebble

theorem handler_none (iter : DictionaryIterator) (s : State)
    (h : dict_find iter KEY_FACE_COUNT = none) :
    inbox_received_handler iter s = (DecodeOutcome.Rejected, s) := by
  simp [inbox_received_handler, h]

theorem handler_skip (iter : DictionaryIterator) (s : State) (ct : Tuple)
    (h : dict_find iter KEY_FACE_COUNT = some ct)
    (hs : (s.s_skip_duplicate_updates &&
      !(detect_changed iter s.s_face_layout (clamp_count ct))) = true) :
    inbox_received_handler iter s = (DecodeOutcome.Skipped, s) := by
  simp only [inbox_received_handler, h, hs, if_true]

theorem handler_accept (iter : DictionaryIterator) (s : State) (ct : Tuple)
    (h : dict_find iter KEY_FACE_COUNT = some ct)
    (hs : (s.s_skip_duplicate_updates &&
      !(detect_changed iter s.s_face_layout (clamp_count ct))) = false) :
    inbox_received_handler iter s =
      (DecodeOutcome.Accepted,
        { s_skip_duplicate_updates := s.s_skip_duplicate_updates
          s_face_layout := build_layout iter (clamp_count ct)
          calls := s.calls ++ [Effect.update_face_layout (build_layout iter (clamp_count ct))]
            ++ [Effect.vibes_short_pulse] }) := by
  simp only [inbox_received_handler, h, hs]
  rfl

/-- An accepted message installs the layout built from it. -/
theorem accepted_layout (iter : DictionaryIterator) (s : State) (ct : Tuple)
    (h : dict_find iter KEY_FACE_COUNT = some ct)
    (ha : (inbox_received_handler iter s).1 = DecodeOutcome.Accepted) :
    (inbox_received_handler iter s).2.s_face_layout = build_layout iter (clamp_count ct) := by
  cases hs : (s.s_skip_duplicate_updates &&
      !(detect_changed iter s.s_face_layout (clamp_count ct)))
  · rw [handler_accept iter s ct h hs]
  · rw [handler_skip iter s ct h hs] at ha
    cases ha

theorem changed_step_or (iter : DictionaryIterator) (layout : FaceLayout) (c : Bool) (i : Nat) :
    changed_step iter layout c i = (c || changed_step iter layout false i) := by
  cases c
  · simp
  · simp [changed_step]

theorem foldl_changed_step (iter : DictionaryIterator) (layout : FaceLayout) (c : Bool)
    (l : List Nat) :
    l.foldl (changed_step iter layout) c = (c || l.any (changed_step iter layout false)) := by
  induction l generalizing c with
  | nil => simp
  | cons i rest ih =>
    rw [List.foldl_cons, ih, changed_step_or]
    simp [Bool.or_assoc]

theorem detect_changed_eq (iter : DictionaryIterator) (layout : FaceLayout) (count : Nat) :
    detect_changed iter layout count =
      (decide (count ≠ layout.count) ||
        (List.range count).any (changed_step iter layout false)) := by
  unfold detect_changed
  by_cases h : count = layout.count
  · simp [h, foldl_changed_step]
  · simp [h]

/-- One pass of the comparison loop reports a change exactly when both keys are
there and the kind, the text or the icon differs from the stored element. -/
theorem changed_step_false_iff (iter : DictionaryIterator) (layout : FaceLayout) (i : Nat) :
    changed_step iter layout false i = true ↔
      ∃ tt vt, dict_find iter (KEY_ELEM_TYPE i) = some tt ∧
        dict_find iter (KEY_ELEM_VALUE i) = some vt ∧
        ((layout.elem i).type ≠ tt.uint8 ∨
          cstr (layout.elem i).value ≠ cstr vt.cstring ∨
          cstr (layout.elem i).icon_name ≠ new_icon iter i) := by
  unfold changed_step new_icon
  cases ht : dict_find iter (KEY_ELEM_TYPE i) with
  | none => simp
  | some tt =>
    cases hv : dict_find iter (KEY_ELEM_VALUE i) with
    | none => simp
    | some vt =>
      cases hi : dict_find iter (KEY_ELEM_ICON i) with
      | none =>
        simp only [Bool.false_eq_true, if_false, ne_eq, strcmp_eq_zero_iff]
        have e0 : cstr [0] = [] := by simp [cstr]
        rw [e0]
        constructor
        · intro h
          refine ⟨tt, vt, rfl, rfl, ?_⟩
          by_cases h1 : cstr (layout.elem i).icon_name = []
          · simp only [h1, not_true_eq_false, if_false] at h
            by_cases h2 : (layout.elem i).type = tt.uint8
            · by_cases h3 : cstr (layout.elem i).value = cstr vt.cstring
              · simp [h2, h3] at h
              · exact Or.inr (Or.inl h3)
            · exact Or.inl h2
          · exact Or.inr (Or.inr h1)
        · rintro ⟨tt2, vt2, e1, e2, h⟩
          cases e1; cases e2
          by_cases h1 : cstr (layout.elem i).icon_name = []
          · simp only [h1, not_true_eq_false, if_false]
            rcases h with h | h | h
            · simp [h]
            · simp [h]
            · exact absurd h1 h
          · simp [h1]
      | some it =>
        simp only [Bool.false_eq_true, if_false, ne_eq, strcmp_eq_zero_iff]
        constructor
        · intro h
          refine ⟨tt, vt, rfl, rfl, ?_⟩
          by_cases h1 : cstr (layout.elem i).icon_name = cstr it.cstring
          · simp only [h1, not_true_eq_false, if_false] at h
            by_cases h2 : (layout.elem i).type = tt.uint8
            · by_cases h3 : cstr (layout.elem i).value = cstr vt.cstring
              · simp [h2, h3] at h
              · exact Or.inr (Or.inl h3)
            · exact Or.inl h2
          · exact Or.inr (Or.inr h1)
        · rintro ⟨tt2, vt2, e1, e2, h⟩
          cases e1; cases e2
          by_cases h1 : cstr (layout.elem i).icon_name = cstr it.cstring
          · simp only [h1, not_true_eq_false, if_false]
            rcases h with h | h | h
            · simp [h]
            · simp [h]
            · exact absurd h1 h
          · simp [h1]

/-- The duplicate check reports a change exactly when the count differs or
some index below it, with both keys there, differs from the stored element. -/
theorem detect_changed_iff (iter : DictionaryIterator) (layout : FaceLayout) (count : Nat) :
    detect_changed iter layout count = true ↔
      count ≠ layout.count ∨
      ∃ i, i < count ∧ ∃ tt vt, dict_find iter (KEY_ELEM_TYPE i) = some tt ∧
        dict_find iter (KEY_ELEM_VALUE i) = some vt ∧
        ((layout.elem i).type ≠ tt.uint8 ∨
          cstr (layout.elem i).value ≠ cstr vt.cstring ∨
          cstr (layout.elem i).icon_name ≠ new_icon iter i) := by
  rw [detect_changed_eq]
  simp only [Bool.or_eq_true, decide_eq_true_eq, List.any_eq_true, List.mem_range,
    changed_step_false_iff]

end Pebbar

/-! ## The decoding loop and the handler of myfirstproject.c in closed form -/

namespace MyFirstProject

open Pebble

theorem two_key_elem_set (c : Nat) (l : List FaceElement) (n i : Nat) (e : FaceElement) :
    (FaceLayout.mk c (l.set n e)).elem i =
      if i = n ∧ n < l.length then e else (FaceLayout.mk c l).elem i := by
  unfold FaceLayout.elem
  simp only [List.getD_eq_getElem?_getD, List.getElem?_set]
  by_cases h : n = i
  · subst h
    by_cases h2 : n < l.length
    · simp [h2]
    · simp [h2]
      have : l[n]? = none := by simp; omega
      simp [this]
  · have h3 : ¬ (i = n) := fun hh => h hh.symm
    simp [h, h3]

theorem two_key_build_step_slot (iter : DictionaryIterator) (layout : FaceLayout) (n : Nat)
    (hlen : layout.elements.length = 4) (hn : n < 4)
    (hz : layout.elem n = FaceElement.zero) :
    (build_step iter layout n).count = layout.count ∧
    (build_step iter layout n).elements.length = 4 ∧
    ∀ i, (build_step iter layout n).elem i = if i = n then slot iter n else layout.elem i := by
  obtain ⟨c, l⟩ := layout
  simp only at hlen
  unfold build_step slot
  cases ht : dict_find iter (KEY_ELEM_TYPE n) with
  | none =>
    refine ⟨rfl, hlen, fun i => ?_⟩
    by_cases hi : i = n
    · subst hi; simp [hz]
    · simp [hi]
  | some tt =>
    cases hv : dict_find iter (KEY_ELEM_VALUE n) with
    | none =>
      refine ⟨rfl, hlen, fun i => ?_⟩
      by_cases hi : i = n
      · subst hi; simp [hz]
      · simp [hi]
    | some vt =>
      refine ⟨rfl, by simp [hlen], fun i => ?_⟩
      simp only [two_key_elem_set, hlen, hn, and_true, hz]
      by_cases hi : i = n
      · simp only [hi, if_true]
        simp [FaceElement.zero, MAX_ELEMENT_VALUE_LEN]
      · simp [hi]

theorem two_key_build_fold (iter : DictionaryIterator) (c n : Nat) (hn : n ≤ 4) :
    ((List.range n).foldl (build_step iter) { FaceLayout.zero with count := c }).count = c ∧
    ((List.range n).foldl (build_step iter)
      { FaceLayout.zero with count := c }).elements.length = 4 ∧
    ∀ i, ((List.range n).foldl (build_step iter) { FaceLayout.zero with count := c }).elem i =
      if i < n then slot iter i else FaceElement.zero := by
  induction n with
  | zero =>
    refine ⟨rfl, rfl, fun i => ?_⟩
    simp only [List.range_zero, List.foldl_nil, Nat.not_lt_zero, if_false]
    unfold FaceLayout.elem FaceLayout.zero
    simp only [List.getD_eq_getElem?_getD, List.getElem?_replicate]
    by_cases hi : i < MAX_FACE_ELEMENTS <;> simp [hi]
  | succ n ih =>
    obtain ⟨h1, h2, h3⟩ := ih (by omega)
    simp only [List.range_succ, List.foldl_append, List.foldl_cons, List.foldl_nil]
    have hz := h3 n
    simp only [Nat.lt_irrefl, if_false] at hz
    obtain ⟨g1, g2, g3⟩ := two_key_build_step_slot iter _ n h2 (by omega) hz
    refine ⟨g1.trans h1, g2, fun i => ?_⟩
    rw [g3 i, h3 i]
    by_cases hi : i = n
    · simp [hi]
    · by_cases hlt : i < n
      · have : i < n + 1 := by omega
        simp [hi, hlt, this]
      · have : ¬ i < n + 1 := by omega
        simp [hi, hlt, this]

theorem two_key_build_layout_count (iter : DictionaryIterator) (count : Nat) (h : count ≤ 4) :
    (build_layout iter count).count = count :=
  (two_key_build_fold iter count count h).1

theorem two_key_build_layout_elem (iter : DictionaryIterator) (count : Nat) (h : count ≤ 4)
    (i : Nat) :
    (build_layout iter count).elem i = if i < count then slot iter i else FaceElement.zero :=
  (two_key_build_fold iter count count h).2.2 i

theorem two_key_clamp_count_eq (count_tuple : Tuple) :
    clamp_count count_tuple = min count_tuple.uint8 4 := by
  unfold clamp_count MAX_FACE_ELEMENTS
  split <;> omega

theorem two_key_handler_none (iter : DictionaryIterator) (s : State)
    (h : dict_find iter KEY_FACE_COUNT = none) :
    inbox_received_handler iter s = (DecodeOutcome.Rejected, s) := by
  simp [inbox_received_handler, h]

theorem two_key_handler_some (iter : DictionaryIterator) (s : State) (ct : Tuple)
    (h : dict_find iter KEY_FACE_COUNT = some ct) :
    inbox_received_handler iter s =
      (DecodeOutcome.Accepted,
        { s_face_layout := build_layout iter (clamp_count ct)
          calls := s.calls ++ [Effect.update_face_layout (build_layout iter (clamp_count ct))]
            ++ [Effect.vibes_short_pulse] }) := by
  simp only [inbox_received_handler, h]

end MyFirstProject

/-! ## The claims -/

open Pebble

/-- C1: for every message and every previous state (any previous layout, the
suppression flag on or off), the handler of pebbar.c and the handler of
myfirstproject.c each end as `Rejected` if and only if the message has no key 0;
and when they end as `Rejected` the current layout (indeed the whole state) is
the one before the call. -/
theorem C1_rejected_iff_count_missing (iter : DictionaryIterator) (s : Pebbar.State)
    (sa : MyFirstProject.State) :
    ((Pebbar.inbox_received_handler iter s).1 = DecodeOutcome.Rejected ↔
      dict_find iter 0 = none) ∧
    ((Pebbar.inbox_received_handler iter s).1 = DecodeOutcome.Rejected →
      (Pebbar.inbox_received_handler iter s).2.s_face_layout = s.s_face_layout ∧
      (Pebbar.inbox_received_handler iter s).2 = s) ∧
    ((MyFirstProject.inbox_received_handler iter sa).1 = DecodeOutcome.Rejected ↔
      dict_find iter 0 = none) ∧
    ((MyFirstProject.inbox_received_handler iter sa).1 = DecodeOutcome.Rejected →
      (MyFirstProject.inbox_received_handler iter sa).2.s_face_layout = sa.s_face_layout ∧
      (MyFirstProject.inbox_received_handler iter sa).2 = sa) := by
  cases h : dict_find iter 0 with
  | none =>
    have hb := Pebbar.handler_none iter s h
    have ha := MyFirstProject.two_key_handler_none iter sa h
    simp [hb, ha]
  | some ct =>
    have ha := MyFirstProject.two_key_handler_some iter sa ct h
    have hb : (Pebbar.inbox_received_handler iter s).1 ≠ DecodeOutcome.Rejected := by
      cases hs : (s.s_skip_duplicate_updates &&
          !(Pebbar.detect_changed iter s.s_face_layout (Pebbar.clamp_count ct)))
      · rw [Pebbar.handler_accept iter s ct h hs]; simp
      · rw [Pebbar.handler_skip iter s ct h hs]; simp
    simp [hb, ha]

/-- C2: for every message whose count key carries the 8-bit value `c` and every
previous state, whenever the handler accepts the message the installed layout
has count `min c 4` (both handlers); and the message `{0: 6}`, when accepted,
gives count 4 with none of the four elements present. -/
theorem C2_count_is_clamped :
    (∀ (iter : DictionaryIterator) (s : Pebbar.State) (ct : Tuple),
      dict_find iter 0 = some ct →
      (Pebbar.inbox_received_handler iter s).1 = DecodeOutcome.Accepted →
      (Pebbar.inbox_received_handler iter s).2.s_face_layout.count = min ct.uint8 4) ∧
    (∀ (s : Pebbar.State),
      (Pebbar.inbox_received_handler Sample.msg_six s).1 = DecodeOutcome.Accepted →
      (Pebbar.inbox_received_handler Sample.msg_six s).2.s_face_layout.count = 4 ∧
      (Pebbar.inbox_received_handler Sample.msg_six s).2.s_face_layout.elements.length = 4 ∧
      ∀ i, i < 4 →
        ((Pebbar.inbox_received_handler Sample.msg_six s).2.s_face_layout.elem i).active
          = false) ∧
    (∀ (iter : DictionaryIterator) (s : MyFirstProject.State) (ct : Tuple),
      dict_find iter 0 = some ct →
      (MyFirstProject.inbox_received_handler iter s).1 = DecodeOutcome.Accepted →
      (MyFirstProject.inbox_received_handler iter s).2.s_face_layout.count
        = min ct.uint8 4) ∧
    (∀ (s : MyFirstProject.State),
      (MyFirstProject.inbox_received_handler Sample.msg_six s).1 = DecodeOutcome.Accepted ∧
      (MyFirstProject.inbox_received_handler Sample.msg_six s).2.s_face_layout.count = 4 ∧
      (MyFirstProject.inbox_received_handler Sample.msg_six s).2.s_face_layout.elements.length
        = 4 ∧
      ∀ i, i < 4 →
        ((MyFirstProject.inbox_received_handler Sample.msg_six s).2.s_face_layout.elem i).active
          = false) := by
  refine ⟨?_, ?_, ?_, ?_⟩
  · intro iter s ct h ha
    rw [Pebbar.accepted_layout iter s ct h ha,
      Pebbar.build_layout_count iter _ (Pebbar.clamp_count_le ct), Pebbar.clamp_count_eq]
  · intro s ha
    have h : dict_find Sample.msg_six Pebbar.KEY_FACE_COUNT = some ⟨[6]⟩ := by decide
    rw [Pebbar.accepted_layout Sample.msg_six s _ h ha]
    have e : Pebbar.build_layout Sample.msg_six (Pebbar.clamp_count ⟨[6]⟩)
        = { count := 4, elements := List.replicate 4 Pebbar.FaceElement.zero } := by decide
    rw [e]
    refine ⟨rfl, rfl, ?_⟩
    intro i hi
    interval_cases i <;> rfl
  · intro iter s ct h _
    rw [MyFirstProject.two_key_handler_some iter s ct h]
    simp only
    rw [MyFirstProject.two_key_build_layout_count iter _ (by
      rw [MyFirstProject.two_key_clamp_count_eq]; omega),
      MyFirstProject.two_key_clamp_count_eq]
  · intro s
    have h : dict_find Sample.msg_six MyFirstProject.KEY_FACE_COUNT = some ⟨[6]⟩ := by decide
    rw [MyFirstProject.two_key_handler_some Sample.msg_six s _ h]
    have e : MyFirstProject.build_layout Sample.msg_six (MyFirstProject.clamp_count ⟨[6]⟩)
        = { count := 4, elements := List.replicate 4 MyFirstProject.FaceElement.zero } := by
      decide
    dsimp only
    rw [e]
    refine ⟨rfl, rfl, rfl, ?_⟩
    intro i hi
    interval_cases i <;> rfl

/-- Witness of C2 on pebbar.c: the message `{0: 6}` arriving at the initial state
is accepted and installs a layout of count `min 6 4`. -/
theorem C2_count_is_clamped_witness :
    dict_find Sample.msg_six 0 = some ⟨[6]⟩ ∧
    (Pebbar.inbox_received_handler Sample.msg_six (Pebbar.init_state true)).1
      = DecodeOutcome.Accepted ∧
    (Pebbar.inbox_received_handler Sample.msg_six
      (Pebbar.init_state true)).2.s_face_layout.count = min (Tuple.uint8 ⟨[6]⟩) 4 :=
  ⟨by decide, by decide,
    C2_count_is_clamped.1 Sample.msg_six (Pebbar.init_state true) ⟨[6]⟩ (by decide) (by decide)⟩

/-- C8 as stated fails: under the two-key decoder of myfirstproject.c the
message `{0: 2, 1: 5, 2: "Rain", 4: 7, 5: "Steps: 120"}`, arriving at the initial
state, does not install the layout of the claim, because element 1 is not
present (index 1 is read from keys 3 and 4, and the message has no key 3). -/
theorem C8_schema_a_example_fails :
    ¬ ((MyFirstProject.inbox_received_handler Sample.msg_two
          MyFirstProject.init_state).2.s_face_layout.count = 2 ∧
      ((MyFirstProject.inbox_received_handler Sample.msg_two
          MyFirstProject.init_state).2.s_face_layout.elem 0).type = 5 ∧
      cstr ((MyFirstProject.inbox_received_handler Sample.msg_two
          MyFirstProject.init_state).2.s_face_layout.elem 0).value = [82, 97, 105, 110] ∧
      ((MyFirstProject.inbox_received_handler Sample.msg_two
          MyFirstProject.init_state).2.s_face_layout.elem 0).active = true ∧
      ((MyFirstProject.inbox_received_handler Sample.msg_two
          MyFirstProject.init_state).2.s_face_layout.elem 1).type = 7 ∧
      cstr ((MyFirstProject.inbox_received_handler Sample.msg_two
          MyFirstProject.init_state).2.s_face_layout.elem 1).value
        = [83, 116, 101, 112, 115, 58, 32, 49, 50, 48] ∧
      ((MyFirstProject.inbox_received_handler Sample.msg_two
          MyFirstProject.init_state).2.s_face_layout.elem 1).active = true) := by
  decide

/-- C8, amended: under the two-key decoder of myfirstproject.c, whatever the
previous state, the message `{0: 2, 1: 5, 2: "Rain", 4: 7, 5: "Steps: 120"}` is
accepted and installs a layout of count 2 whose element 0 has kind 5, text "Rain"
and is present, and whose element 1 is left all-zero and not present; the layout
of the claim (element 1 of kind 7, text "Steps: 120", present) is what the two-key
decoder installs for `{0: 2, 1: 5, 2: "Rain", 3: 7, 4: "Steps: 120"}`, and what the
three-key decoder of pebbar.c installs for the message of the claim at its
initial state. -/
theorem C8_schema_a_example_amended (s : MyFirstProject.State) :
    ((MyFirstProject.inbox_received_handler Sample.msg_two s).1 = DecodeOutcome.Accepted ∧
    (MyFirstProject.inbox_received_handler Sample.msg_two s).2.s_face_layout.count = 2 ∧
    ((MyFirstProject.inbox_received_handler Sample.msg_two s).2.s_face_layout.elem 0).type = 5 ∧
    cstr ((MyFirstProject.inbox_received_handler Sample.msg_two s).2.s_face_layout.elem 0).value
      = [82, 97, 105, 110] ∧
    ((MyFirstProject.inbox_received_handler Sample.msg_two s).2.s_face_layout.elem 0).active
      = true ∧
    (MyFirstProject.inbox_received_handler Sample.msg_two s).2.s_face_layout.elem 1
      = MyFirstProject.FaceElement.zero ∧
    ((MyFirstProject.inbox_received_handler Sample.msg_two s).2.s_face_layout.elem 1).active
      = false) ∧
    ((MyFirstProject.inbox_received_handler Sample.msg_two_a s).1 = DecodeOutcome.Accepted ∧
    (MyFirstProject.inbox_received_handler Sample.msg_two_a s).2.s_face_layout.count = 2 ∧
    ((MyFirstProject.inbox_received_handler Sample.msg_two_a s).2.s_face_layout.elem 0).type
      = 5 ∧
    cstr ((MyFirstProject.inbox_received_handler Sample.msg_two_a s).2.s_face_layout.elem 0).value
      = [82, 97, 105, 110] ∧
    ((MyFirstProject.inbox_received_handler Sample.msg_two_a s).2.s_face_layout.elem 0).active
      = true ∧
    ((MyFirstProject.inbox_received_handler Sample.msg_two_a s).2.s_face_layout.elem 1).type
      = 7 ∧
    cstr ((MyFirstProject.inbox_received_handler Sample.msg_two_a s).2.s_face_layout.elem 1).value
      = [83, 116, 101, 112, 115, 58, 32, 49, 50, 48] ∧
    ((MyFirstProject.inbox_received_handler Sample.msg_two_a s).2.s_face_layout.elem 1).active
      = true) ∧
    ((Pebbar.inbox_received_handler Sample.msg_two (Pebbar.init_state true)).1
      = DecodeOutcome.Accepted ∧
    (Pebbar.inbox_received_handler Sample.msg_two
      (Pebbar.init_state true)).2.s_face_layout.count = 2 ∧
    ((Pebbar.inbox_received_handler Sample.msg_two
      (Pebbar.init_state true)).2.s_face_layout.elem 1).type = 7 ∧
    cstr ((Pebbar.inbox_received_handler Sample.msg_two
      (Pebbar.init_state true)).2.s_face_layout.elem 1).value
      = [83, 116, 101, 112, 115, 58, 32, 49, 50, 48] ∧
    ((Pebbar.inbox_received_handler Sample.msg_two
      (Pebbar.init_state true)).2.s_face_layout.elem 1).active = true) := by
  have h : dict_find Sample.msg_two MyFirstProject.KEY_FACE_COUNT = some ⟨[2]⟩ := by decide
  have h2 : dict_find Sample.msg_two_a MyFirstProject.KEY_FACE_COUNT = some ⟨[2]⟩ := by decide
  refine ⟨?_, ?_, by decide⟩
  · rw [MyFirstProject.two_key_handler_some Sample.msg_two s _ h]
    dsimp only
    refine ⟨rfl, ?_, ?_, ?_, ?_, ?_, ?_⟩ <;> decide
  · rw [MyFirstProject.two_key_handler_some Sample.msg_two_a s _ h2]
    dsimp only
    refine ⟨rfl, ?_, ?_, ?_, ?_, ?_, ?_, ?_⟩ <;> decide

/-- C9: for every message and every previous state, the handler of pebbar.c,
when it ends as `Accepted`, has made exactly two calls, in this order: the render
callback `update_face_layout`, which sees the newly installed layout, and then
`vibes_short_pulse`; when it ends as `Skipped` or `Rejected` it has made no call
and the current layout (indeed the whole state) is the one before the call. -/
theorem C9_effects_only_on_accepted (iter : DictionaryIterator) (s : Pebbar.State) :
    ((Pebbar.inbox_received_handler iter s).1 = DecodeOutcome.Accepted →
      (Pebbar.inbox_received_handler iter s).2.calls =
        s.calls ++
          [Pebbar.Effect.update_face_layout (Pebbar.inbox_received_handler iter s).2.s_face_layout,
           Pebbar.Effect.vibes_short_pulse]) ∧
    ((Pebbar.inbox_received_handler iter s).1 ≠ DecodeOutcome.Accepted →
      (Pebbar.inbox_received_handler iter s).2.calls = s.calls ∧
      (Pebbar.inbox_received_handler iter s).2.s_face_layout = s.s_face_layout ∧
      (Pebbar.inbox_received_handler iter s).2 = s) := by
  cases h : dict_find iter Pebbar.KEY_FACE_COUNT with
  | none =>
    rw [Pebbar.handler_none iter s h]
    simp
  | some ct =>
    cases hs : (s.s_skip_duplicate_updates &&
        !(Pebbar.detect_changed iter s.s_face_layout (Pebbar.clamp_count ct)))
    · rw [Pebbar.handler_accept iter s ct h hs]
      simp
    · rw [Pebbar.handler_skip iter s ct h hs]
      simp

/-- An accepted message of pebbar.c leaves at each index below the clamped
count what `slot` reads off the dictionary. -/
theorem Pebbar.accepted_elem (iter : DictionaryIterator) (s : Pebbar.State) (ct : Tuple)
    (i : Nat) (h : dict_find iter 0 = some ct)
    (ha : (Pebbar.inbox_received_handler iter s).1 = DecodeOutcome.Accepted)
    (hi : i < min ct.uint8 4) :
    (Pebbar.inbox_received_handler iter s).2.s_face_layout.elem i = Pebbar.slot iter i := by
  rw [Pebbar.accepted_layout iter s ct h ha,
    Pebbar.build_layout_elem iter _ (Pebbar.clamp_count_le ct), Pebbar.clamp_count_eq, if_pos hi]

/-- An accepted message of myfirstproject.c leaves at each index below the
clamped count what `slot` reads off the dictionary. -/
theorem MyFirstProject.two_key_accepted_elem (iter : DictionaryIterator) (s : MyFirstProject.State)
    (ct : Tuple) (i : Nat) (h : dict_find iter 0 = some ct) (hi : i < min ct.uint8 4) :
    (MyFirstProject.inbox_received_handler iter s).2.s_face_layout.elem i
      = MyFirstProject.slot iter i := by
  rw [MyFirstProject.two_key_handler_some iter s ct h]
  dsimp only
  rw [MyFirstProject.two_key_build_layout_elem iter _ (by
      rw [MyFirstProject.two_key_clamp_count_eq]; omega),
    MyFirstProject.two_key_clamp_count_eq, if_pos hi]

/-- C3: for every accepted message and every index `i < min count 4` whose type
and value keys are both present, the stored text is exactly the first
`min n 255` bytes of the `n`-byte input text, its length is `min n 255`, and the
byte after it is the terminator; in pebbar.c (schema B), when the icon key is
present the stored icon name is exactly the first `min m 31` bytes of the
`m`-byte input icon name followed by the terminator, and when the icon key is
absent the stored icon name is the empty string. The first part is schema B,
the second schema A, whose handler accepts every message that has a count
key. -/
theorem C3_text_and_icon_truncated :
    (∀ (iter : DictionaryIterator) (s : Pebbar.State) (ct tt vt : Tuple) (i : Nat),
      dict_find iter 0 = some ct →
      (Pebbar.inbox_received_handler iter s).1 = DecodeOutcome.Accepted →
      i < min ct.uint8 4 →
      dict_find iter (Pebbar.KEY_ELEM_TYPE i) = some tt →
      dict_find iter (Pebbar.KEY_ELEM_VALUE i) = some vt →
      (cstr ((Pebbar.inbox_received_handler iter s).2.s_face_layout.elem i).value
          = (cstr vt.cstring).take (min (strlen vt.cstring) 255) ∧
        strlen ((Pebbar.inbox_received_handler iter s).2.s_face_layout.elem i).value
          = min (strlen vt.cstring) 255 ∧
        ((Pebbar.inbox_received_handler iter s).2.s_face_layout.elem i).value[
          min (strlen vt.cstring) 255]? = some 0) ∧
      (∀ it : Tuple, dict_find iter (Pebbar.KEY_ELEM_ICON i) = some it →
        cstr ((Pebbar.inbox_received_handler iter s).2.s_face_layout.elem i).icon_name
          = (cstr it.cstring).take (min (strlen it.cstring) 31) ∧
        strlen ((Pebbar.inbox_received_handler iter s).2.s_face_layout.elem i).icon_name
          = min (strlen it.cstring) 31 ∧
        ((Pebbar.inbox_received_handler iter s).2.s_face_layout.elem i).icon_name[
          min (strlen it.cstring) 31]? = some 0) ∧
      (dict_find iter (Pebbar.KEY_ELEM_ICON i) = none →
        cstr ((Pebbar.inbox_received_handler iter s).2.s_face_layout.elem i).icon_name = [] ∧
        ((Pebbar.inbox_received_handler iter s).2.s_face_layout.elem i).icon_name[0]?
          = some 0)) ∧
    (∀ (iter : DictionaryIterator) (s : MyFirstProject.State) (ct tt vt : Tuple) (i : Nat),
      dict_find iter 0 = some ct →
      i < min ct.uint8 4 →
      dict_find iter (MyFirstProject.KEY_ELEM_TYPE i) = some tt →
      dict_find iter (MyFirstProject.KEY_ELEM_VALUE i) = some vt →
      (MyFirstProject.inbox_received_handler iter s).1 = DecodeOutcome.Accepted ∧
      cstr ((MyFirstProject.inbox_received_handler iter s).2.s_face_layout.elem i).value
          = (cstr vt.cstring).take (min (strlen vt.cstring) 255) ∧
        strlen ((MyFirstProject.inbox_received_handler iter s).2.s_face_layout.elem i).value
          = min (strlen vt.cstring) 255 ∧
        ((MyFirstProject.inbox_received_handler iter s).2.s_face_layout.elem i).value[
          min (strlen vt.cstring) 255]? = some 0) := by
  constructor
  · intro iter s ct tt vt i h ha hi ht hv
    rw [Pebbar.accepted_elem iter s ct i h ha hi]
    unfold Pebbar.slot
    simp only [ht, hv]
    obtain ⟨_, b2, b3, b4⟩ := bounded_copy vt.cstring 255
    refine ⟨⟨b2, b3, b4⟩, ?_, ?_⟩
    · intro it hit
      simp only [hit]
      obtain ⟨_, c2, c3, c4⟩ := bounded_copy it.cstring 31
      exact ⟨c2, c3, c4⟩
    · intro hit
      simp only [hit]
      exact ⟨cstr_zeroed 32, rfl⟩
  · intro iter s ct tt vt i h hi ht hv
    refine ⟨by rw [MyFirstProject.two_key_handler_some iter s ct h], ?_⟩
    rw [MyFirstProject.two_key_accepted_elem iter s ct i h hi]
    unfold MyFirstProject.slot
    simp only [ht, hv]
    obtain ⟨_, b2, b3, b4⟩ := bounded_copy vt.cstring 255
    exact ⟨b2, b3, b4⟩

/-- Witness of C3 on both handlers: a 256-byte text, arriving at the initial
state, is accepted and stored as its first 255 bytes followed by the
terminator, by the handler of pebbar.c and by the handler of
myfirstproject.c. -/
theorem C3_text_and_icon_truncated_witness :
    dict_find Sample.msg_long 0 = some ⟨[1]⟩ ∧
    (Pebbar.inbox_received_handler Sample.msg_long (Pebbar.init_state true)).1
      = DecodeOutcome.Accepted ∧
    0 < min (Tuple.uint8 ⟨[1]⟩) 4 ∧
    strlen (Tuple.cstring ⟨List.replicate 256 97 ++ [0]⟩) = 256 ∧
    strlen ((Pebbar.inbox_received_handler Sample.msg_long
      (Pebbar.init_state true)).2.s_face_layout.elem 0).value = 255 ∧
    ((Pebbar.inbox_received_handler Sample.msg_long
      (Pebbar.init_state true)).2.s_face_layout.elem 0).value[
        min (strlen (Tuple.cstring ⟨List.replicate 256 97 ++ [0]⟩)) 255]? = some 0 ∧
    (MyFirstProject.inbox_received_handler Sample.msg_long MyFirstProject.init_state).1
      = DecodeOutcome.Accepted ∧
    cstr ((MyFirstProject.inbox_received_handler Sample.msg_long
      MyFirstProject.init_state).2.s_face_layout.elem 0).value = List.replicate 255 97 ∧
    strlen ((MyFirstProject.inbox_received_handler Sample.msg_long
      MyFirstProject.init_state).2.s_face_layout.elem 0).value = 255 ∧
    ((MyFirstProject.inbox_received_handler Sample.msg_long
      MyFirstProject.init_state).2.s_face_layout.elem 0).value[
        min (strlen (Tuple.cstring ⟨List.replicate 256 97 ++ [0]⟩)) 255]? = some 0 :=
  ⟨by decide, by decide, by decide, by decide,
    (((C3_text_and_icon_truncated.1 Sample.msg_long (Pebbar.init_state true) ⟨[1]⟩ ⟨[5]⟩
      ⟨List.replicate 256 97 ++ [0]⟩ 0 (by decide) (by decide) (by decide) (by decide)
      (by decide)).1).2.1).trans (by decide),
    (((C3_text_and_icon_truncated.1 Sample.msg_long (Pebbar.init_state true) ⟨[1]⟩ ⟨[5]⟩
      ⟨List.replicate 256 97 ++ [0]⟩ 0 (by decide) (by decide) (by decide) (by decide)
      (by decide)).1).2.2),
    (C3_text_and_icon_truncated.2 Sample.msg_long MyFirstProject.init_state ⟨[1]⟩ ⟨[5]⟩
      ⟨List.replicate 256 97 ++ [0]⟩ 0 (by decide) (by decide) (by decide) (by decide)).1,
    ((C3_text_and_icon_truncated.2 Sample.msg_long MyFirstProject.init_state ⟨[1]⟩ ⟨[5]⟩
      ⟨List.replicate 256 97 ++ [0]⟩ 0 (by decide) (by decide) (by decide)
      (by decide)).2.1).trans (by decide),
    ((C3_text_and_icon_truncated.2 Sample.msg_long MyFirstProject.init_state ⟨[1]⟩ ⟨[5]⟩
      ⟨List.replicate 256 97 ++ [0]⟩ 0 (by decide) (by decide) (by decide)
      (by decide)).2.2.1).trans (by decide),
    (C3_text_and_icon_truncated.2 Sample.msg_long MyFirstProject.init_state ⟨[1]⟩ ⟨[5]⟩
      ⟨List.replicate 256 97 ++ [0]⟩ 0 (by decide) (by decide) (by decide)
      (by decide)).2.2.2⟩

/-- C4: for every accepted message and every index `i < min count 4`, element `i`
of the installed layout is present if and only if both the type key and the
value key of index `i` are in the message; an index missing either key is left
all-zero; an index with both keys is populated from them; and the element
installed at an index is determined by the keys of that index alone, so that
any two accepted messages that agree on the keys of index `j` install the same
element `j`, whatever is missing at other indices. The first two parts are
schema B, the last two schema A, whose handler accepts every message that has
a count key. -/
theorem C4_present_iff_both_keys :
    (∀ (iter : DictionaryIterator) (s : Pebbar.State) (ct : Tuple) (i : Nat),
      dict_find iter 0 = some ct →
      (Pebbar.inbox_received_handler iter s).1 = DecodeOutcome.Accepted →
      i < min ct.uint8 4 →
      (((Pebbar.inbox_received_handler iter s).2.s_face_layout.elem i).active = true ↔
        (dict_find iter (Pebbar.KEY_ELEM_TYPE i)).isSome = true ∧
        (dict_find iter (Pebbar.KEY_ELEM_VALUE i)).isSome = true) ∧
      (dict_find iter (Pebbar.KEY_ELEM_TYPE i) = none ∨
          dict_find iter (Pebbar.KEY_ELEM_VALUE i) = none →
        (Pebbar.inbox_received_handler iter s).2.s_face_layout.elem i
          = Pebbar.FaceElement.zero) ∧
      (∀ tt vt : Tuple, dict_find iter (Pebbar.KEY_ELEM_TYPE i) = some tt →
        dict_find iter (Pebbar.KEY_ELEM_VALUE i) = some vt →
        ((Pebbar.inbox_received_handler iter s).2.s_face_layout.elem i).active = true ∧
        ((Pebbar.inbox_received_handler iter s).2.s_face_layout.elem i).type = tt.uint8 ∧
        cstr ((Pebbar.inbox_received_handler iter s).2.s_face_layout.elem i).value
          = (cstr vt.cstring).take 255)) ∧
    (∀ (iter iter2 : DictionaryIterator) (s s2 : Pebbar.State) (ct ct2 : Tuple) (j : Nat),
      dict_find iter 0 = some ct → dict_find iter2 0 = some ct2 →
      (Pebbar.inbox_received_handler iter s).1 = DecodeOutcome.Accepted →
      (Pebbar.inbox_received_handler iter2 s2).1 = DecodeOutcome.Accepted →
      j < min ct.uint8 4 → j < min ct2.uint8 4 →
      dict_find iter (Pebbar.KEY_ELEM_TYPE j) = dict_find iter2 (Pebbar.KEY_ELEM_TYPE j) →
      dict_find iter (Pebbar.KEY_ELEM_VALUE j) = dict_find iter2 (Pebbar.KEY_ELEM_VALUE j) →
      dict_find iter (Pebbar.KEY_ELEM_ICON j) = dict_find iter2 (Pebbar.KEY_ELEM_ICON j) →
      (Pebbar.inbox_received_handler iter s).2.s_face_layout.elem j
        = (Pebbar.inbox_received_handler iter2 s2).2.s_face_layout.elem j) ∧
    (∀ (iter : DictionaryIterator) (s : MyFirstProject.State) (ct : Tuple) (i : Nat),
      dict_find iter 0 = some ct →
      i < min ct.uint8 4 →
      (MyFirstProject.inbox_received_handler iter s).1 = DecodeOutcome.Accepted ∧
      (((MyFirstProject.inbox_received_handler iter s).2.s_face_layout.elem i).active = true ↔
        (dict_find iter (MyFirstProject.KEY_ELEM_TYPE i)).isSome = true ∧
        (dict_find iter (MyFirstProject.KEY_ELEM_VALUE i)).isSome = true) ∧
      (dict_find iter (MyFirstProject.KEY_ELEM_TYPE i) = none ∨
          dict_find iter (MyFirstProject.KEY_ELEM_VALUE i) = none →
        (MyFirstProject.inbox_received_handler iter s).2.s_face_layout.elem i
          = MyFirstProject.FaceElement.zero) ∧
      (∀ tt vt : Tuple, dict_find iter (MyFirstProject.KEY_ELEM_TYPE i) = some tt →
        dict_find iter (MyFirstProject.KEY_ELEM_VALUE i) = some vt →
        ((MyFirstProject.inbox_received_handler iter s).2.s_face_layout.elem i).active = true ∧
        ((MyFirstProject.inbox_received_handler iter s).2.s_face_layout.elem i).type
          = tt.uint8 ∧
        cstr ((MyFirstProject.inbox_received_handler iter s).2.s_face_layout.elem i).value
          = (cstr vt.cstring).take 255)) ∧
    (∀ (iter iter2 : DictionaryIterator) (s s2 : MyFirstProject.State) (ct ct2 : Tuple)
      (j : Nat),
      dict_find iter 0 = some ct → dict_find iter2 0 = some ct2 →
      j < min ct.uint8 4 → j < min ct2.uint8 4 →
      dict_find iter (MyFirstProject.KEY_ELEM_TYPE j)
        = dict_find iter2 (MyFirstProject.KEY_ELEM_TYPE j) →
      dict_find iter (MyFirstProject.KEY_ELEM_VALUE j)
        = dict_find iter2 (MyFirstProject.KEY_ELEM_VALUE j) →
      (MyFirstProject.inbox_received_handler iter s).2.s_face_layout.elem j
        = (MyFirstProject.inbox_received_handler iter2 s2).2.s_face_layout.elem j) := by
  refine ⟨?_, ?_, ?_, ?_⟩
  · intro iter s ct i h ha hi
    rw [Pebbar.accepted_elem iter s ct i h ha hi]
    unfold Pebbar.slot
    cases ht : dict_find iter (Pebbar.KEY_ELEM_TYPE i) with
    | none => simp [Pebbar.FaceElement.zero]
    | some tt =>
      cases hv : dict_find iter (Pebbar.KEY_ELEM_VALUE i) with
      | none => simp [Pebbar.FaceElement.zero]
      | some vt =>
        simp only [Option.isSome_some, and_self, true_iff, reduceCtorEq, or_self,
          false_implies, true_and]
        intro tt2 vt2 e1 e2
        cases e1; cases e2
        exact ⟨rfl, (cstr_strncpy_set _ _ 255 (by simp [zeroed]))⟩
  · intro iter iter2 s s2 ct ct2 j h h2 ha ha2 hj hj2 e1 e2 e3
    rw [Pebbar.accepted_elem iter s ct j h ha hj, Pebbar.accepted_elem iter2 s2 ct2 j h2 ha2 hj2]
    unfold Pebbar.slot
    rw [e1, e2, e3]
  · intro iter s ct i h hi
    refine ⟨by rw [MyFirstProject.two_key_handler_some iter s ct h], ?_⟩
    rw [MyFirstProject.two_key_accepted_elem iter s ct i h hi]
    unfold MyFirstProject.slot
    cases ht : dict_find iter (MyFirstProject.KEY_ELEM_TYPE i) with
    | none => simp [MyFirstProject.FaceElement.zero]
    | some tt =>
      cases hv : dict_find iter (MyFirstProject.KEY_ELEM_VALUE i) with
      | none => simp [MyFirstProject.FaceElement.zero]
      | some vt =>
        simp only [Option.isSome_some, and_self, true_iff, reduceCtorEq, or_self,
          false_implies, true_and]
        intro tt2 vt2 e1 e2
        cases e1; cases e2
        exact ⟨rfl, (cstr_strncpy_set _ _ 255 (by simp [zeroed]))⟩
  · intro iter iter2 s s2 ct ct2 j h h2 hj hj2 e1 e2
    rw [MyFirstProject.two_key_accepted_elem iter s ct j h hj,
      MyFirstProject.two_key_accepted_elem iter2 s2 ct2 j h2 hj2]
    unfold MyFirstProject.slot
    rw [e1, e2]

/-- Witness of C4 on both handlers. On pebbar.c the message
`{0: 2, 4: 7, 5: "Steps: 120"}`, accepted at the initial state, leaves element 0
(no keys) all-zero and populates element 1 (keys 4 and 5). On myfirstproject.c
the message `{0: 2, 3: 7, 4: "Steps: 120"}` is accepted at the initial state,
leaves element 0 (no keys) all-zero and not present, and populates element 1
(keys 3 and 4) with kind 7 and the text, present. -/
theorem C4_present_iff_both_keys_witness :
    dict_find Sample.msg_gap 0 = some ⟨[2]⟩ ∧
    (Pebbar.inbox_received_handler Sample.msg_gap (Pebbar.init_state true)).1
      = DecodeOutcome.Accepted ∧
    0 < min (Tuple.uint8 ⟨[2]⟩) 4 ∧
    dict_find Sample.msg_gap (Pebbar.KEY_ELEM_TYPE 0) = none ∧
    (Pebbar.inbox_received_handler Sample.msg_gap (Pebbar.init_state true)).2.s_face_layout.elem 0
      = Pebbar.FaceElement.zero ∧
    ((Pebbar.inbox_received_handler Sample.msg_gap
      (Pebbar.init_state true)).2.s_face_layout.elem 1).active = true ∧
    dict_find Sample.msg_gap_a (MyFirstProject.KEY_ELEM_TYPE 0) = none ∧
    (MyFirstProject.inbox_received_handler Sample.msg_gap_a MyFirstProject.init_state).1
      = DecodeOutcome.Accepted ∧
    (MyFirstProject.inbox_received_handler Sample.msg_gap_a
      MyFirstProject.init_state).2.s_face_layout.elem 0 = MyFirstProject.FaceElement.zero ∧
    (((MyFirstProject.inbox_received_handler Sample.msg_gap_a
      MyFirstProject.init_state).2.s_face_layout.elem 1).active = true ∧
    ((MyFirstProject.inbox_received_handler Sample.msg_gap_a
      MyFirstProject.init_state).2.s_face_layout.elem 1).type = Tuple.uint8 ⟨[7]⟩ ∧
    cstr ((MyFirstProject.inbox_received_handler Sample.msg_gap_a
      MyFirstProject.init_state).2.s_face_layout.elem 1).value
      = (cstr (Tuple.cstring ⟨Sample.steps⟩)).take 255) :=
  ⟨by decide, by decide, by decide, by decide,
    (C4_present_iff_both_keys.1 Sample.msg_gap (Pebbar.init_state true) ⟨[2]⟩ 0 (by decide)
      (by decide) (by decide)).2.1 (Or.inl (by decide)),
    ((C4_present_iff_both_keys.1 Sample.msg_gap (Pebbar.init_state true) ⟨[2]⟩ 1 (by decide)
      (by decide) (by decide)).2.2 ⟨[7]⟩ ⟨Sample.steps⟩ (by decide) (by decide)).1,
    by decide,
    (C4_present_iff_both_keys.2.2.1 Sample.msg_gap_a MyFirstProject.init_state ⟨[2]⟩ 0
      (by decide) (by decide)).1,
    (C4_present_iff_both_keys.2.2.1 Sample.msg_gap_a MyFirstProject.init_state ⟨[2]⟩ 0
      (by decide) (by decide)).2.2.1 (Or.inl (by decide)),
    (C4_present_iff_both_keys.2.2.1 Sample.msg_gap_a MyFirstProject.init_state ⟨[2]⟩ 1
      (by decide) (by decide)).2.2.2 ⟨[7]⟩ ⟨Sample.steps⟩ (by decide) (by decide)⟩

/-! ### Duplicate suppression -/

/-- With suppression on and a count key, the handler of pebbar.c ends as `Skipped`
exactly when the duplicate check saw no change, and as `Accepted` otherwise. -/
theorem Pebbar.outcome_of_check (iter : DictionaryIterator) (s : Pebbar.State) (ct : Tuple)
    (hskip : s.s_skip_duplicate_updates = true) (hc : dict_find iter 0 = some ct) :
    ((Pebbar.inbox_received_handler iter s).1 = DecodeOutcome.Skipped ↔
      Pebbar.detect_changed iter s.s_face_layout (Pebbar.clamp_count ct) = false) ∧
    ((Pebbar.inbox_received_handler iter s).1 = DecodeOutcome.Accepted ↔
      Pebbar.detect_changed iter s.s_face_layout (Pebbar.clamp_count ct) = true) := by
  cases hd : Pebbar.detect_changed iter s.s_face_layout (Pebbar.clamp_count ct)
  · rw [Pebbar.handler_skip iter s ct hc (by simp [hskip, hd])]
    simp
  · rw [Pebbar.handler_accept iter s ct hc (by simp [hskip, hd])]
    simp

/-- The fields the duplicate check looks at, in a slot decoded from both keys. -/
theorem Pebbar.slot_fields (iter : DictionaryIterator) (i : Nat) (tt vt : Tuple)
    (ht : dict_find iter (Pebbar.KEY_ELEM_TYPE i) = some tt)
    (hv : dict_find iter (Pebbar.KEY_ELEM_VALUE i) = some vt) :
    (Pebbar.slot iter i).type = tt.uint8 ∧
    cstr (Pebbar.slot iter i).value = (cstr vt.cstring).take 255 ∧
    cstr (Pebbar.slot iter i).icon_name = (Pebbar.new_icon iter i).take 31 := by
  unfold Pebbar.slot Pebbar.new_icon
  simp only [ht, hv]
  refine ⟨trivial, cstr_strncpy_set _ _ 255 (by simp [zeroed]), ?_⟩
  cases dict_find iter (Pebbar.KEY_ELEM_ICON i) with
  | none => simp only [cstr_zeroed]; rfl
  | some it => exact cstr_strncpy_set _ _ 31 (by simp [zeroed])

/-- C5: in the handler of pebbar.c with duplicate suppression on, for every
message with a count key and every previous state: if the clamped count differs
from the count of the previous layout, or some index `i` below the clamped count
has both its type and value keys and the kind differs from the kind of the
previous element, or the text differs from its text, or the icon (the empty
string when the icon key is absent) differs from its
icon name, then the outcome is `Accepted`. -/
theorem C5_difference_is_accepted (iter : DictionaryIterator) (s : Pebbar.State) (ct : Tuple)
    (hskip : s.s_skip_duplicate_updates = true)
    (hc : dict_find iter 0 = some ct)
    (hdiff : min ct.uint8 4 ≠ s.s_face_layout.count ∨
      ∃ i, i < min ct.uint8 4 ∧ ∃ tt vt : Tuple,
        dict_find iter (Pebbar.KEY_ELEM_TYPE i) = some tt ∧
        dict_find iter (Pebbar.KEY_ELEM_VALUE i) = some vt ∧
        (tt.uint8 ≠ (s.s_face_layout.elem i).type ∨
          cstr vt.cstring ≠ cstr (s.s_face_layout.elem i).value ∨
          (match dict_find iter (Pebbar.KEY_ELEM_ICON i) with
            | some icon_tuple => cstr icon_tuple.cstring
            | none => []) ≠ cstr (s.s_face_layout.elem i).icon_name)) :
    (Pebbar.inbox_received_handler iter s).1 = DecodeOutcome.Accepted := by
  rw [(Pebbar.outcome_of_check iter s ct hskip hc).2, Pebbar.detect_changed_iff,
    Pebbar.clamp_count_eq]
  rcases hdiff with h | ⟨i, hi, tt, vt, ht, hv, h⟩
  · exact Or.inl h
  · refine Or.inr ⟨i, hi, tt, vt, ht, hv, ?_⟩
    rcases h with h | h | h
    · exact Or.inl (fun e => h e.symm)
    · exact Or.inr (Or.inl (fun e => h e.symm))
    · exact Or.inr (Or.inr (fun e => h e.symm))

/-- Witness of C5: after `{0: 1, 1: 5, 2: "Rain"}` was accepted at the initial
state, the message `{0: 1, 1: 5, 2: "Rain, heavy"}` differs in the text of index 0
and is accepted. -/
theorem C5_difference_is_accepted_witness :
    (Pebbar.inbox_received_handler Sample.msg_rain (Pebbar.init_state true)).1
      = DecodeOutcome.Accepted ∧
    cstr (Tuple.cstring ⟨Sample.rain_heavy⟩) ≠
      cstr (((Pebbar.inbox_received_handler Sample.msg_rain
        (Pebbar.init_state true)).2.s_face_layout.elem 0).value) ∧
    (Pebbar.inbox_received_handler Sample.msg_rain_heavy
      (Pebbar.inbox_received_handler Sample.msg_rain (Pebbar.init_state true)).2).1
      = DecodeOutcome.Accepted :=
  ⟨by decide, by decide,
    C5_difference_is_accepted Sample.msg_rain_heavy
      (Pebbar.inbox_received_handler Sample.msg_rain (Pebbar.init_state true)).2 ⟨[1]⟩
      (by decide) (by decide)
      (Or.inr ⟨0, by decide, ⟨[5]⟩, ⟨Sample.rain_heavy⟩, by decide, by decide,
        Or.inr (Or.inl (by decide))⟩)⟩

/-- C6 fails on the code: with suppression on, the message `{0: 1, 1: 5, 2: text}`
with a text of 256 bytes is accepted at the initial state, and the identical
message sent again right afterwards is accepted again, not skipped: the stored
text was cut to 255 bytes and the duplicate check compares it with the uncut
text of the message. The same happens with an icon name of 32 bytes. -/
theorem C6_resend_of_long_text_is_accepted_again :
    (Pebbar.init_state true).s_skip_duplicate_updates = true ∧
    (Pebbar.inbox_received_handler Sample.msg_long (Pebbar.init_state true)).1
      = DecodeOutcome.Accepted ∧
    (Pebbar.inbox_received_handler Sample.msg_long
      (Pebbar.inbox_received_handler Sample.msg_long (Pebbar.init_state true)).2).1
      = DecodeOutcome.Accepted ∧
    (Pebbar.inbox_received_handler Sample.msg_long
      (Pebbar.inbox_received_handler Sample.msg_long (Pebbar.init_state true)).2).1
      ≠ DecodeOutcome.Skipped ∧
    (Pebbar.inbox_received_handler Sample.msg_long_icon (Pebbar.init_state true)).1
      = DecodeOutcome.Accepted ∧
    (Pebbar.inbox_received_handler Sample.msg_long_icon
      (Pebbar.inbox_received_handler Sample.msg_long_icon (Pebbar.init_state true)).2).1
      = DecodeOutcome.Accepted := by
  refine ⟨?_, ?_, ?_, ?_, ?_, ?_⟩ <;> decide

/-- The equality of the specification, unfolded. -/
theorem Spec.equal_iff (a b : Pebbar.FaceLayout) :
    Spec.equal a b = true ↔
      a.count = b.count ∧ ∀ i, i < a.count →
        (a.elem i).type = (b.elem i).type ∧
        cstr (a.elem i).value = cstr (b.elem i).value ∧
        cstr (a.elem i).icon_name = cstr (b.elem i).icon_name := by
  unfold Spec.equal
  simp only [Bool.and_eq_true, decide_eq_true_eq, List.all_eq_true, List.mem_range, and_assoc]

/-- When the texts and icon names of a message fit the buffers of an element,
the candidate built from it holds, at each index with both keys, the very
kind, text and icon. -/
theorem Pebbar.candidate_fields (iter : DictionaryIterator) (ct : Tuple)
    (hfit : ∀ i, i < min ct.uint8 4 → ∀ tt vt : Tuple,
      dict_find iter (Pebbar.KEY_ELEM_TYPE i) = some tt →
      dict_find iter (Pebbar.KEY_ELEM_VALUE i) = some vt →
      strlen vt.cstring ≤ 255 ∧
      ∀ it : Tuple, dict_find iter (Pebbar.KEY_ELEM_ICON i) = some it → strlen it.cstring ≤ 31)
    (i : Nat) (hi : i < min ct.uint8 4) (tt vt : Tuple)
    (ht : dict_find iter (Pebbar.KEY_ELEM_TYPE i) = some tt)
    (hv : dict_find iter (Pebbar.KEY_ELEM_VALUE i) = some vt) :
    ((Pebbar.build_layout iter (Pebbar.clamp_count ct)).elem i).type = tt.uint8 ∧
    cstr ((Pebbar.build_layout iter (Pebbar.clamp_count ct)).elem i).value = cstr vt.cstring ∧
    cstr ((Pebbar.build_layout iter (Pebbar.clamp_count ct)).elem i).icon_name
      = Pebbar.new_icon iter i := by
  rw [Pebbar.build_layout_elem iter _ (Pebbar.clamp_count_le ct), Pebbar.clamp_count_eq,
    if_pos hi]
  obtain ⟨f1, f2, f3⟩ := Pebbar.slot_fields iter i tt vt ht hv
  obtain ⟨g1, g2⟩ := hfit i hi tt vt ht hv
  refine ⟨f1, ?_, ?_⟩
  · rw [f2]; exact List.take_of_length_le g1
  · rw [f3]
    apply List.take_of_length_le
    unfold Pebbar.new_icon
    cases hic : dict_find iter (Pebbar.KEY_ELEM_ICON i) with
    | none => simp
    | some it => exact g2 it hic

/-- With suppression on and texts and icon names that fit, the handler of
pebbar.c skips a message exactly when the candidate built from it agrees with
the current layout in count and at every index that has both keys. -/
theorem Pebbar.skipped_iff_fields (iter : DictionaryIterator) (s : Pebbar.State)
    (ct : Tuple)
    (hskip : s.s_skip_duplicate_updates = true)
    (hc : dict_find iter 0 = some ct)
    (hfit : ∀ i, i < min ct.uint8 4 → ∀ tt vt : Tuple,
      dict_find iter (Pebbar.KEY_ELEM_TYPE i) = some tt →
      dict_find iter (Pebbar.KEY_ELEM_VALUE i) = some vt →
      strlen vt.cstring ≤ 255 ∧
      ∀ it : Tuple, dict_find iter (Pebbar.KEY_ELEM_ICON i) = some it →
        strlen it.cstring ≤ 31) :
    (Pebbar.inbox_received_handler iter s).1 = DecodeOutcome.Skipped ↔
      (Pebbar.build_layout iter (Pebbar.clamp_count ct)).count = s.s_face_layout.count ∧
      ∀ i, i < (Pebbar.build_layout iter (Pebbar.clamp_count ct)).count →
        (dict_find iter (Pebbar.KEY_ELEM_TYPE i)).isSome = true →
        (dict_find iter (Pebbar.KEY_ELEM_VALUE i)).isSome = true →
        ((Pebbar.build_layout iter (Pebbar.clamp_count ct)).elem i).type
          = (s.s_face_layout.elem i).type ∧
        cstr ((Pebbar.build_layout iter (Pebbar.clamp_count ct)).elem i).value
          = cstr (s.s_face_layout.elem i).value ∧
        cstr ((Pebbar.build_layout iter (Pebbar.clamp_count ct)).elem i).icon_name
          = cstr (s.s_face_layout.elem i).icon_name := by
  have hcount := Pebbar.build_layout_count iter _ (Pebbar.clamp_count_le ct)
  rw [(Pebbar.outcome_of_check iter s ct hskip hc).1, ← Bool.not_eq_true,
    Pebbar.detect_changed_iff, hcount]
  constructor
  · intro hnot
    have hn1 : Pebbar.clamp_count ct = s.s_face_layout.count := by
      by_contra hne
      exact hnot (Or.inl hne)
    refine ⟨hn1, fun i hi h1 h2 => ?_⟩
    obtain ⟨tt, ht⟩ := Option.isSome_iff_exists.mp h1
    obtain ⟨vt, hv⟩ := Option.isSome_iff_exists.mp h2
    have hi4 : i < min ct.uint8 4 := by rw [← Pebbar.clamp_count_eq]; exact hi
    obtain ⟨c1, c2, c3⟩ := Pebbar.candidate_fields iter ct hfit i hi4 tt vt ht hv
    rw [c1, c2, c3]
    refine ⟨?_, ?_, ?_⟩
    · by_contra hne
      exact hnot (Or.inr ⟨i, hi, tt, vt, ht, hv, Or.inl (fun e => hne e.symm)⟩)
    · by_contra hne
      exact hnot (Or.inr ⟨i, hi, tt, vt, ht, hv, Or.inr (Or.inl (fun e => hne e.symm))⟩)
    · by_contra hne
      exact hnot (Or.inr ⟨i, hi, tt, vt, ht, hv, Or.inr (Or.inr (fun e => hne e.symm))⟩)
  · rintro ⟨hn1, hall⟩ hch
    rcases hch with hne | ⟨i, hi, tt, vt, ht, hv, hd⟩
    · exact hne hn1
    · have hi4 : i < min ct.uint8 4 := by rw [← Pebbar.clamp_count_eq]; exact hi
      obtain ⟨c1, c2, c3⟩ := Pebbar.candidate_fields iter ct hfit i hi4 tt vt ht hv
      obtain ⟨e1, e2, e3⟩ := hall i hi (by simp [ht]) (by simp [hv])
      rw [c1] at e1
      rw [c2] at e2
      rw [c3] at e3
      rcases hd with hd | hd | hd
      · exact hd e1.symm
      · exact hd e2.symm
      · exact hd e3.symm

/-- C7 as stated fails: after `{0: 1, 1: 5, 2: "Rain"}` was accepted at the initial
state with suppression on, the message `{0: 1}` is skipped, although the
candidate built from it (count 1, element 0 all-zero) is not equal to the
current layout (element 0 of kind 5 with text "Rain"). -/
theorem C7_skipped_without_equal :
    ¬ ((Pebbar.inbox_received_handler Sample.msg_one_empty
          (Pebbar.inbox_received_handler Sample.msg_rain (Pebbar.init_state true)).2).1
        = DecodeOutcome.Skipped ↔
      Spec.equal (Pebbar.build_layout Sample.msg_one_empty (Pebbar.clamp_count ⟨[1]⟩))
        (Pebbar.inbox_received_handler Sample.msg_rain
          (Pebbar.init_state true)).2.s_face_layout = true) := by
  decide

/-- C7, amended: in the handler of pebbar.c with suppression on, for every
message with a count key whose texts are at most 255 bytes and whose icon names
are at most 31 bytes (at the indices below the clamped count that have both the
type and the value key) and every previous layout `P`: the outcome is `Skipped`
if and only if the candidate `C` built from the message and `P` have equal
counts and, at every index below the count for which the message has both the
type and the value key, equal kind, text and icon name; indices for which the
message lacks a key are not compared. In particular `equal (C, P)` is enough
for `Skipped`. -/
theorem C7_skipped_iff_equal_on_decoded (iter : DictionaryIterator) (s : Pebbar.State)
    (ct : Tuple)
    (hskip : s.s_skip_duplicate_updates = true)
    (hc : dict_find iter 0 = some ct)
    (hfit : ∀ i, i < min ct.uint8 4 → ∀ tt vt : Tuple,
      dict_find iter (Pebbar.KEY_ELEM_TYPE i) = some tt →
      dict_find iter (Pebbar.KEY_ELEM_VALUE i) = some vt →
      strlen vt.cstring ≤ 255 ∧
      ∀ it : Tuple, dict_find iter (Pebbar.KEY_ELEM_ICON i) = some it →
        strlen it.cstring ≤ 31) :
    ((Pebbar.inbox_received_handler iter s).1 = DecodeOutcome.Skipped ↔
      (Pebbar.build_layout iter (Pebbar.clamp_count ct)).count = s.s_face_layout.count ∧
      ∀ i, i < (Pebbar.build_layout iter (Pebbar.clamp_count ct)).count →
        (dict_find iter (Pebbar.KEY_ELEM_TYPE i)).isSome = true →
        (dict_find iter (Pebbar.KEY_ELEM_VALUE i)).isSome = true →
        ((Pebbar.build_layout iter (Pebbar.clamp_count ct)).elem i).type
          = (s.s_face_layout.elem i).type ∧
        cstr ((Pebbar.build_layout iter (Pebbar.clamp_count ct)).elem i).value
          = cstr (s.s_face_layout.elem i).value ∧
        cstr ((Pebbar.build_layout iter (Pebbar.clamp_count ct)).elem i).icon_name
          = cstr (s.s_face_layout.elem i).icon_name) ∧
    (Spec.equal (Pebbar.build_layout iter (Pebbar.clamp_count ct)) s.s_face_layout = true →
      (Pebbar.inbox_received_handler iter s).1 = DecodeOutcome.Skipped) := by
  have main := Pebbar.skipped_iff_fields iter s ct hskip hc hfit
  refine ⟨main, fun heq => ?_⟩
  rw [Spec.equal_iff] at heq
  exact main.mpr ⟨heq.1, fun i hi _ _ => heq.2 i hi⟩

/-- Witness of C7: after `{0: 1, 1: 5, 2: "Rain"}` was accepted at the initial
state, the same message (text of 4 bytes, no icon) builds an equal candidate and
is skipped. -/
theorem C7_skipped_iff_equal_on_decoded_witness :
    dict_find Sample.msg_rain 0 = some ⟨[1]⟩ ∧
    Spec.equal (Pebbar.build_layout Sample.msg_rain (Pebbar.clamp_count ⟨[1]⟩))
      (Pebbar.inbox_received_handler Sample.msg_rain
        (Pebbar.init_state true)).2.s_face_layout = true ∧
    (Pebbar.inbox_received_handler Sample.msg_rain
      (Pebbar.inbox_received_handler Sample.msg_rain (Pebbar.init_state true)).2).1
      = DecodeOutcome.Skipped :=
  ⟨by decide, by decide,
    (C7_skipped_iff_equal_on_decoded Sample.msg_rain
      (Pebbar.inbox_received_handler Sample.msg_rain (Pebbar.init_state true)).2 ⟨[1]⟩
      (by decide) (by decide)
      (by
        intro i hi tt vt _ hv
        have hi0 : i = 0 := by
          have : min (Tuple.uint8 ⟨[1]⟩) 4 = 1 := by decide
          omega
        subst hi0
        have hv2 : vt = ⟨Sample.rain⟩ := by
          have : dict_find Sample.msg_rain (Pebbar.KEY_ELEM_VALUE 0) = some ⟨Sample.rain⟩ := by
            decide
          rw [this] at hv
          exact (Option.some.inj hv).symm
        subst hv2
        refine ⟨by decide, fun it hit => ?_⟩
        have : dict_find Sample.msg_rain (Pebbar.KEY_ELEM_ICON 0) = none := by decide
        rw [this] at hit
        cases hit)).2 (by decide)⟩

/-- The handler of pebbar.c never writes the suppression flag. -/
theorem Pebbar.flag_unchanged (iter : DictionaryIterator) (s : Pebbar.State) :
    (Pebbar.inbox_received_handler iter s).2.s_skip_duplicate_updates
      = s.s_skip_duplicate_updates := by
  cases h : dict_find iter Pebbar.KEY_FACE_COUNT with
  | none => rw [Pebbar.handler_none iter s h]
  | some ct =>
    cases hs : (s.s_skip_duplicate_updates &&
        !(Pebbar.detect_changed iter s.s_face_layout (Pebbar.clamp_count ct)))
    · rw [Pebbar.handler_accept iter s ct h hs]
    · rw [Pebbar.handler_skip iter s ct h hs]

/-- What does hold of re-sending: with suppression on, a message whose texts are
at most 255 bytes and whose icon names are at most 31 bytes, once accepted, is
skipped when it is sent again right afterwards. -/
theorem Pebbar.resend_is_skipped_when_fits (iter : DictionaryIterator) (s : Pebbar.State)
    (ct : Tuple)
    (hskip : s.s_skip_duplicate_updates = true)
    (hc : dict_find iter 0 = some ct)
    (hfit : ∀ i, i < min ct.uint8 4 → ∀ tt vt : Tuple,
      dict_find iter (Pebbar.KEY_ELEM_TYPE i) = some tt →
      dict_find iter (Pebbar.KEY_ELEM_VALUE i) = some vt →
      strlen vt.cstring ≤ 255 ∧
      ∀ it : Tuple, dict_find iter (Pebbar.KEY_ELEM_ICON i) = some it →
        strlen it.cstring ≤ 31)
    (ha : (Pebbar.inbox_received_handler iter s).1 = DecodeOutcome.Accepted) :
    (Pebbar.inbox_received_handler iter (Pebbar.inbox_received_handler iter s).2).1
      = DecodeOutcome.Skipped := by
  have hflag : (Pebbar.inbox_received_handler iter s).2.s_skip_duplicate_updates = true := by
    rw [Pebbar.flag_unchanged, hskip]
  rw [Pebbar.skipped_iff_fields iter _ ct hflag hc hfit, Pebbar.accepted_layout iter s ct hc ha]
  exact ⟨rfl, fun _ _ _ _ => ⟨rfl, rfl, rfl⟩⟩

/-! ### The invariant of the current layout -/

theorem Pebbar.zero_ok : Pebbar.elem_ok Pebbar.FaceElement.zero := by
  refine ⟨fun _ => rfl, rfl, ?_, ?_, rfl, ?_, ?_⟩ <;> decide

theorem Pebbar.slot_ok (iter : DictionaryIterator) (i : Nat) :
    Pebbar.elem_ok (Pebbar.slot iter i) := by
  unfold Pebbar.slot
  cases ht : dict_find iter (Pebbar.KEY_ELEM_TYPE i) with
  | none => exact Pebbar.zero_ok
  | some tt =>
    cases hv : dict_find iter (Pebbar.KEY_ELEM_VALUE i) with
    | none => exact Pebbar.zero_ok
    | some vt =>
      obtain ⟨b1, _, b3, b4⟩ := bounded_copy vt.cstring 255
      have b5 : strlen ((strncpy (zeroed 256) vt.cstring 255).set 255 0) ≤ 255 := by
        rw [b3]; omega
      cases hic : dict_find iter (Pebbar.KEY_ELEM_ICON i) with
      | none =>
        refine ⟨fun h => ?_, b1, b5, ?_, rfl, ?_, ?_⟩
        · simp at h
        · simp only [b3]; exact b4
        · show strlen (zeroed 32) ≤ 31
          decide
        · show (zeroed 32)[strlen (zeroed 32)]? = some 0
          decide
      | some it =>
        obtain ⟨c1, _, c3, c4⟩ := bounded_copy it.cstring 31
        have c5 : strlen ((strncpy (zeroed 32) it.cstring 31).set 31 0) ≤ 31 := by
          rw [c3]; omega
        refine ⟨fun h => ?_, b1, b5, ?_, c1, c5, ?_⟩
        · simp at h
        · simp only [b3]; exact b4
        · simp only [c3]; exact c4

theorem Pebbar.zero_layout_ok : Pebbar.layout_ok Pebbar.FaceLayout.zero := by
  refine ⟨by decide, rfl, fun i _ hi => ?_, fun i hi => ?_⟩
  · interval_cases i <;> rfl
  · have e : Pebbar.FaceLayout.zero.elem i = Pebbar.FaceElement.zero := by
      interval_cases i <;> rfl
    rw [e]; exact Pebbar.zero_ok

theorem Pebbar.build_layout_ok (iter : DictionaryIterator) (count : Nat) (h : count ≤ 4) :
    Pebbar.layout_ok (Pebbar.build_layout iter count) := by
  refine ⟨?_, Pebbar.build_layout_length iter count h, fun i hc _ => ?_, fun i _ => ?_⟩
  · rw [Pebbar.build_layout_count iter count h]; exact h
  · rw [Pebbar.build_layout_count iter count h] at hc
    rw [Pebbar.build_layout_elem iter count h, if_neg (by omega)]
  · rw [Pebbar.build_layout_elem iter count h]
    split
    · exact Pebbar.slot_ok iter i
    · exact Pebbar.zero_ok

theorem Pebbar.handler_keeps_ok (iter : DictionaryIterator) (s : Pebbar.State)
    (h : Pebbar.layout_ok s.s_face_layout) :
    Pebbar.layout_ok (Pebbar.inbox_received_handler iter s).2.s_face_layout := by
  cases hc : dict_find iter Pebbar.KEY_FACE_COUNT with
  | none => rw [Pebbar.handler_none iter s hc]; exact h
  | some ct =>
    cases hs : (s.s_skip_duplicate_updates &&
        !(Pebbar.detect_changed iter s.s_face_layout (Pebbar.clamp_count ct)))
    · rw [Pebbar.handler_accept iter s ct hc hs]
      exact Pebbar.build_layout_ok iter _ (Pebbar.clamp_count_le ct)
    · rw [Pebbar.handler_skip iter s ct hc hs]; exact h

theorem Pebbar.run_from_ok (msgs : List DictionaryIterator) (s : Pebbar.State)
    (h : Pebbar.layout_ok s.s_face_layout) :
    Pebbar.layout_ok (Pebbar.run_from s msgs).s_face_layout := by
  induction msgs generalizing s with
  | nil => exact h
  | cons m rest ih => exact ih _ (Pebbar.handler_keeps_ok m s h)

/-- C10: starting from the all-zero layout installed at init (with the
suppression flag on or off) and applying the handler of pebbar.c to any finite
sequence of messages, the current layout has a count of at most 4 and its four
elements; every element at an index at or above the count is all-zero; every
element that is not present is all-zero; every stored text sits in a buffer of
256 bytes, is at most 255 bytes long and is followed by a NUL byte inside the
buffer, and every stored icon name sits in a buffer of 32 bytes, is at most 31
bytes long and is followed by a NUL byte inside the buffer. The all-zero element
has kind 0, empty text, empty icon name and is not present. -/
theorem C10_layout_invariant (skip : Bool) (msgs : List DictionaryIterator) :
    (Pebbar.run skip msgs).s_face_layout.count ≤ 4 ∧
    (Pebbar.run skip msgs).s_face_layout.elements.length = 4 ∧
    (∀ i, (Pebbar.run skip msgs).s_face_layout.count ≤ i → i < 4 →
      (Pebbar.run skip msgs).s_face_layout.elem i = Pebbar.FaceElement.zero) ∧
    (∀ i, i < 4 → ((Pebbar.run skip msgs).s_face_layout.elem i).active = false →
      (Pebbar.run skip msgs).s_face_layout.elem i = Pebbar.FaceElement.zero) ∧
    (∀ i, i < 4 →
      ((Pebbar.run skip msgs).s_face_layout.elem i).value.length = 256 ∧
      strlen ((Pebbar.run skip msgs).s_face_layout.elem i).value ≤ 255 ∧
      ((Pebbar.run skip msgs).s_face_layout.elem i).value[
        strlen ((Pebbar.run skip msgs).s_face_layout.elem i).value]? = some 0 ∧
      ((Pebbar.run skip msgs).s_face_layout.elem i).icon_name.length = 32 ∧
      strlen ((Pebbar.run skip msgs).s_face_layout.elem i).icon_name ≤ 31 ∧
      ((Pebbar.run skip msgs).s_face_layout.elem i).icon_name[
        strlen ((Pebbar.run skip msgs).s_face_layout.elem i).icon_name]? = some 0) ∧
    (Pebbar.FaceElement.zero.type = 0 ∧ cstr Pebbar.FaceElement.zero.value = [] ∧
      cstr Pebbar.FaceElement.zero.icon_name = [] ∧ Pebbar.FaceElement.zero.active = false) := by
  obtain ⟨h1, h2, h3, h4⟩ :=
    Pebbar.run_from_ok msgs (Pebbar.init_state skip) Pebbar.zero_layout_ok
  refine ⟨h1, h2, h3, fun i hi => (h4 i hi).1, fun i hi => (h4 i hi).2,
    rfl, by decide, by decide, rfl⟩
